import Mathlib

/-
Verification of the LLM gateway core of this repository
(volume_1, chapters 4 to 7): provider resolution, session memory reset,
structured / tool JSON decoding, the two-step tool protocol, the uniform
QueryResult record, and the durable session-file naming.

The Python sources are embedded shallowly: Python dicts become association
lists, JSON values become the inductive type `PyJson`, `json.loads` becomes
the executable recursive-descent function `pyJsonLoads`, Python string
methods (`strip`, `format`, slicing) become explicit list-of-character
functions, and each `ask_question` variant becomes a pure function that is
parameterised over the outcome of the remote provider call (an
`Except String String`: error text on exception, response text otherwise).
`Except String r` is used as the result of each `ask_question` so that an
exception escaping the Python function is an `.error` value.
-/

/-! ## Python-level character and string helpers -/

/-- The brace characters, by code point (used throughout instead of literals). -/
def lbrace : Char := Char.ofNat 123

/-- Closing brace, by code point. -/
def rbrace : Char := Char.ofNat 125

/-- Backtick, by code point. -/
def btick : Char := Char.ofNat 96

/-- Single quote, by code point. -/
def squote : Char := Char.ofNat 39

/-- Whitespace stripped by Python `str.strip()` (the ASCII cases). -/
def isPyWs (c : Char) : Bool :=
  c = ' ' || c = '\t' || c = '\n' || c = '\r' || c = '\x0b' || c = '\x0c'

/-- Whitespace accepted between tokens by Python `json.loads`. -/
def isJsonWs (c : Char) : Bool :=
  c = ' ' || c = '\t' || c = '\n' || c = '\r'

/-- Python `str.strip()` on the character list of a string. -/
def pyStripL (cs : List Char) : List Char :=
  ((cs.dropWhile isPyWs).reverse.dropWhile isPyWs).reverse

/-- Python `str.strip()`. -/
def pyStrip (s : String) : String := ⟨pyStripL s.data⟩

/-- Python truthiness of an optional string: `None` and `""` are falsy. -/
def truthyOpt : Option String → Bool
  | none => false
  | some s => s != ""

/-- First-match lookup in an association list with string keys
(Python dicts are modelled as association lists with unique keys). -/
def lookupStr {α : Type} (l : List (String × α)) (k : String) : Option α :=
  match l with
  | [] => none
  | (k', v) :: rest => if k' = k then some v else lookupStr rest k

/-! ## JSON values (`PyJson`) as produced by `json.loads` -/

/-- The value produced by Python `json.loads`.  Numbers keep their source
literal (`str()` of an integer literal prints the literal itself; float
formatting is not needed by any claim). -/
inductive PyJson where
  | null
  | bool (b : Bool)
  | num (lit : String)
  | str (s : String)
  | arr (elems : List PyJson)
  | obj (fields : List (String × PyJson))

/-- `dict.get` on the fields of a JSON object. -/
def PyJson.lookup (fields : List (String × PyJson)) (k : String) : Option PyJson :=
  lookupStr fields k

/-- Dict insertion as performed by `json.loads` on duplicate keys: the first
position is kept, the value is overwritten; a new key is appended. -/
def insertMember (fields : List (String × PyJson)) (k : String) (v : PyJson) :
    List (String × PyJson) :=
  if fields.any (fun kv => kv.1 = k) then
    fields.map (fun kv => if kv.1 = k then (k, v) else kv)
  else fields ++ [(k, v)]

/-- `"0"`-like numeric literals (mantissa digits all zero), for Python
truthiness of numbers. -/
def isZeroLit (lit : String) : Bool :=
  let mantissa := lit.data.takeWhile (fun c => c != 'e' && c != 'E')
  (mantissa.filter Char.isDigit).all (fun c => c = '0')

/-- Python truthiness of a JSON value: `None`, `False`, `0`, `""`, `[]`
and the empty dict are falsy. -/
def pyTruthy : PyJson → Bool
  | .null => false
  | .bool b => b
  | .num lit => !(isZeroLit lit)
  | .str s => s != ""
  | .arr xs => !xs.isEmpty
  | .obj fs => !fs.isEmpty

mutual

/-- Python `repr` of a JSON value (string escaping inside `repr` is not
reproduced; no claim inspects the repr of a string containing quotes). -/
def pyRepr : PyJson → String
  | .null => "None"
  | .bool true => "True"
  | .bool false => "False"
  | .num lit => lit
  | .str s => ⟨squote :: s.data ++ [squote]⟩
  | .arr xs => "[" ++ String.intercalate (", ") (pyReprElems xs) ++ "]"
  | .obj fs => ⟨[lbrace]⟩ ++ String.intercalate (", ") (pyReprFields fs) ++ ⟨[rbrace]⟩

/-- `repr` of the elements of a list. -/
def pyReprElems : List PyJson → List String
  | [] => []
  | x :: xs => pyRepr x :: pyReprElems xs

/-- `repr` of the fields of a dict. -/
def pyReprFields : List (String × PyJson) → List String
  | [] => []
  | (k, v) :: fs => (⟨squote :: k.data ++ [squote]⟩ ++ ": " ++ pyRepr v) :: pyReprFields fs

end

/-- Python `str()` of a JSON value. -/
def pyStr : PyJson → String
  | .str s => s
  | v => pyRepr v

/-- Hexadecimal digits of a natural number below 16. -/
def hexDigit (n : Nat) : Char :=
  if n < 10 then Char.ofNat (48 + n) else Char.ofNat (87 + (n - 10))

/-- JSON string escaping as produced by `json.dumps` (ensure_ascii=False). -/
def jsonEscapeChar (c : Char) : List Char :=
  if c = '"' then ['\\', '"']
  else if c = '\\' then ['\\', '\\']
  else if c = '\n' then ['\\', 'n']
  else if c = '\t' then ['\\', 't']
  else if c = '\r' then ['\\', 'r']
  else if c = '\x08' then ['\\', 'b']
  else if c = '\x0c' then ['\\', 'f']
  else if c.toNat < 32 then
    ['\\', 'u', '0', '0', hexDigit (c.toNat / 16), hexDigit (c.toNat % 16)]
  else [c]

mutual

/-- Python `json.dumps(..., ensure_ascii=False)` with the default
separators `", "` and `": "`. -/
def jsonDumps : PyJson → String
  | .null => "null"
  | .bool true => "true"
  | .bool false => "false"
  | .num lit => lit
  | .str s => ⟨'"' :: s.data.flatMap jsonEscapeChar ++ ['"']⟩
  | .arr xs => "[" ++ String.intercalate (", ") (jsonDumpsElems xs) ++ "]"
  | .obj fs => ⟨[lbrace]⟩ ++ String.intercalate (", ") (jsonDumpsFields fs) ++ ⟨[rbrace]⟩

/-- `dumps` of the elements of a list. -/
def jsonDumpsElems : List PyJson → List String
  | [] => []
  | x :: xs => jsonDumps x :: jsonDumpsElems xs

/-- `dumps` of the fields of a dict. -/
def jsonDumpsFields : List (String × PyJson) → List String
  | [] => []
  | (k, v) :: fs =>
    (⟨'"' :: k.data.flatMap jsonEscapeChar ++ ['"']⟩ ++ ": " ++ jsonDumps v) :: jsonDumpsFields fs

end

/-! ## `json.loads`: a recursive-descent parser over character lists -/

/-- Hexadecimal value of a character, if any. -/
def hexVal (c : Char) : Option Nat :=
  if '0' ≤ c ∧ c ≤ '9' then some (c.toNat - 48)
  else if 'a' ≤ c ∧ c ≤ 'f' then some (c.toNat - 87)
  else if 'A' ≤ c ∧ c ≤ 'F' then some (c.toNat - 55)
  else none

/-- The one-character JSON string escapes. -/
def escChar (e : Char) : Option Char :=
  if e = '"' then some '"'
  else if e = '\\' then some '\\'
  else if e = '/' then some '/'
  else if e = 'b' then some '\x08'
  else if e = 'f' then some '\x0c'
  else if e = 'n' then some '\n'
  else if e = 'r' then some '\r'
  else if e = 't' then some '\t'
  else none

/-- Four hexadecimal digits, as in a `\uXXXX` escape. -/
def readHex4 : List Char → Option (Nat × List Char)
  | h1 :: h2 :: h3 :: h4 :: rest3 =>
    match hexVal h1 with
    | none => none
    | some a =>
      match hexVal h2 with
      | none => none
      | some b =>
        match hexVal h3 with
        | none => none
        | some c =>
          match hexVal h4 with
          | none => none
          | some d => some ((((a * 16 + b) * 16 + c) * 16 + d), rest3)
  | [] => none
  | [_] => none
  | [_, _] => none
  | [_, _, _] => none

/-- Decode one escape sequence after the backslash; returns the decoded
character and the remaining input. -/
def readEscape : List Char → Option (Char × List Char)
  | [] => none
  | e :: rest2 =>
    match escChar e with
    | some ch => some (ch, rest2)
    | none =>
      if e = 'u' then
        match readHex4 rest2 with
        | some nr => some (Char.ofNat nr.1, nr.2)
        | none => none
      else none

/-- Body of a JSON string after the opening quote; returns the decoded
characters and the input following the closing quote.  Control characters
are rejected, as in strict `json.loads`.  (Surrogate-pair recombination of
`\uXXXX` escapes is not reproduced.) -/
def parseStringBody : Nat → List Char → Option (List Char × List Char)
  | 0, _ => none
  | _ + 1, [] => none
  | fuel + 1, c :: rest =>
    if c = '"' then some ([], rest)
    else if c = '\\' then
      match readEscape rest with
      | none => none
      | some (ch, rs) => (parseStringBody fuel rs).map (fun br => (ch :: br.1, br.2))
    else if c.toNat < 32 then none
    else (parseStringBody fuel rest).map (fun br => (c :: br.1, br.2))

/-- Fraction part of a JSON number: consumes `.digits` if present, with the
rollback `json.loads` performs when no digit follows the dot. -/
def parseFrac (cs : List Char) : List Char × List Char :=
  match cs with
  | '.' :: r =>
    if r.takeWhile Char.isDigit = [] then ([], cs)
    else ('.' :: r.takeWhile Char.isDigit, r.dropWhile Char.isDigit)
  | _ => ([], cs)

/-- Exponent part of a JSON number, with rollback when no digit follows. -/
def parseExp (cs : List Char) : List Char × List Char :=
  match cs with
  | c :: r =>
    if c = 'e' ∨ c = 'E' then
      match r with
      | s :: r2 =>
        if s = '+' ∨ s = '-' then
          if r2.takeWhile Char.isDigit = [] then ([], cs)
          else (c :: s :: r2.takeWhile Char.isDigit, r2.dropWhile Char.isDigit)
        else
          if r.takeWhile Char.isDigit = [] then ([], cs)
          else (c :: r.takeWhile Char.isDigit, r.dropWhile Char.isDigit)
      | [] => ([], cs)
    else ([], cs)
  | [] => ([], cs)

/-- The unsigned part of a JSON number: integer part without leading
zeros, optional fraction and exponent.  Returns the consumed characters
and the rest. -/
def parseUNumber (cs : List Char) : Option (List Char × List Char) :=
  match cs with
  | [] => none
  | c :: r1 =>
    if c = '0' then
      let fr := parseFrac r1
      let ex := parseExp fr.2
      some (c :: (fr.1 ++ ex.1), ex.2)
    else if c.isDigit then
      let ds := r1.takeWhile Char.isDigit
      let fr := parseFrac (r1.dropWhile Char.isDigit)
      let ex := parseExp fr.2
      some (c :: (ds ++ fr.1 ++ ex.1), ex.2)
    else none

/-- A JSON number literal: optional sign, then the unsigned part.
Returns the literal and the rest. -/
def parseNumber (cs : List Char) : Option (String × List Char) :=
  if cs.head? = some '-' then
    (parseUNumber cs.tail).map (fun p => (⟨'-' :: p.1⟩, p.2))
  else
    (parseUNumber cs).map (fun p => (⟨p.1⟩, p.2))

mutual

/-- One JSON value; the input starts at the first character of the value
(no leading whitespace).  Returns the value and the unconsumed rest. -/
def parseValue : Nat → List Char → Option (PyJson × List Char)
  | 0, _ => none
  | _ + 1, [] => none
  | fuel + 1, c :: rest =>
    if c = lbrace then parseMembersStart fuel (rest.dropWhile isJsonWs)
    else if c = '[' then parseElemsStart fuel (rest.dropWhile isJsonWs)
    else if c = '"' then
      (parseStringBody (rest.length + 1) rest).map (fun br => (.str ⟨br.1⟩, br.2))
    else if c = 't' then
      match rest with
      | 'r' :: 'u' :: 'e' :: r => some (.bool true, r)
      | _ => none
    else if c = 'f' then
      match rest with
      | 'a' :: 'l' :: 's' :: 'e' :: r => some (.bool false, r)
      | _ => none
    else if c = 'n' then
      match rest with
      | 'u' :: 'l' :: 'l' :: r => some (.null, r)
      | _ => none
    else if c = '-' ∨ c.isDigit then
      (parseNumber (c :: rest)).map (fun lr => (.num lr.1, lr.2))
    else none

/-- Object body after `{` and whitespace: either `}` or the first member. -/
def parseMembersStart : Nat → List Char → Option (PyJson × List Char)
  | 0, _ => none
  | _ + 1, [] => none
  | fuel + 1, c :: rest =>
    if c = rbrace then some (.obj [], rest)
    else parseMembers fuel [] (c :: rest)

/-- Members of an object; the input starts at the opening quote of a key. -/
def parseMembers : Nat → List (String × PyJson) → List Char →
    Option (PyJson × List Char)
  | 0, _, _ => none
  | _ + 1, _, [] => none
  | fuel + 1, acc, c :: rest =>
    if c = '"' then
      match parseStringBody (rest.length + 1) rest with
      | none => none
      | some (kb, r1) =>
        match r1.dropWhile isJsonWs with
        | [] => none
        | c1 :: r3 =>
          if c1 = ':' then
            match parseValue fuel (r3.dropWhile isJsonWs) with
            | none => none
            | some (v, r4) =>
              match r4.dropWhile isJsonWs with
              | [] => none
              | c2 :: r6 =>
                if c2 = ',' then
                  parseMembers fuel (insertMember acc ⟨kb⟩ v) (r6.dropWhile isJsonWs)
                else if c2 = rbrace then some (.obj (insertMember acc ⟨kb⟩ v), r6)
                else none
          else none
    else none

/-- Array body after `[` and whitespace: either `]` or the first element. -/
def parseElemsStart : Nat → List Char → Option (PyJson × List Char)
  | 0, _ => none
  | _ + 1, [] => none
  | fuel + 1, c :: rest =>
    if c = ']' then some (.arr [], rest)
    else parseElems fuel [] (c :: rest)

/-- Elements of an array; the input starts at the first character of an
element. -/
def parseElems : Nat → List PyJson → List Char → Option (PyJson × List Char)
  | 0, _, _ => none
  | fuel + 1, acc, cs =>
    match parseValue fuel cs with
    | none => none
    | some (v, r1) =>
      match r1.dropWhile isJsonWs with
      | [] => none
      | c2 :: r3 =>
        if c2 = ',' then parseElems fuel (acc ++ [v]) (r3.dropWhile isJsonWs)
        else if c2 = ']' then some (.arr (acc ++ [v]), r3)
        else none

end

/-- Python `json.loads`: skip surrounding JSON whitespace, parse one value,
require the input to be exhausted.  `none` models a raised
`json.JSONDecodeError`. -/
def pyJsonLoads (s : String) : Option PyJson :=
  let cs := s.data.dropWhile isJsonWs
  match parseValue (cs.length + 1) cs with
  | some (v, rest) => if rest.dropWhile isJsonWs = [] then some v else none
  | none => none

/-! ## The tolerant decoders of chapters 6 and 7 -/

/-- The common code-fence stripping performed by both decoders
(`_parse_structured_response`, chapter 6, lines 47-53, and
`_extract_json_object`, chapter 7, lines 74-80): `strip()`, then drop a
leading ```` ```json ````, then a leading ```` ``` ````, then a trailing
```` ``` ````. -/
def fenceStripL (cs : List Char) : List Char :=
  let t0 := pyStripL cs
  let t1 := if "```json".data.isPrefixOf t0 then t0.drop 7 else t0
  let t2 := if "```".data.isPrefixOf t1 then t1.drop 3 else t1
  if "```".data.isSuffixOf t2 then t2.take (t2.length - 3) else t2

/-- `_parse_structured_response` (chapter 6 langchain
`llm_structured_gateway.py`, lines 45-54): fence strip, then a direct
`json.loads` of the stripped text; no fallback.  The error text stands in
for the raised `json.JSONDecodeError`. -/
def parse_structured_response (raw : String) : Except String PyJson :=
  let content := fenceStripL raw.data
  match pyJsonLoads ⟨pyStripL content⟩ with
  | some v => .ok v
  | none => .error "json.JSONDecodeError"

/-- The span matched by the greedy fallback regex
`re.search(r"\x7b[\s\S]*\x7d", text)` of chapter 7: from the first opening
brace to the last closing brace of the text (the regex is greedy, so it is
not the first *balanced* span). -/
def greedyBraceSpan (cs : List Char) : Option (List Char) :=
  let t1 := cs.dropWhile (fun c => c != lbrace)
  let t2 := (t1.reverse.dropWhile (fun c => c != rbrace)).reverse
  match t2 with
  | [] => none
  | _ :: _ => some t2

/-- `_extract_json_object` (chapter 7 llamaindex `llm_tools_gateway.py`,
lines 72-89): fence strip, direct `json.loads`; on failure, `json.loads`
of the greedy first-brace-to-last-brace span, re-raising when there is no
span or that parse fails as well. -/
def extract_json_object (raw : String) : Except String PyJson :=
  let text := pyStripL (fenceStripL raw.data)
  match pyJsonLoads ⟨text⟩ with
  | some v => .ok v
  | none =>
    match greedyBraceSpan text with
    | none => .error "json.JSONDecodeError"
    | some span =>
      match pyJsonLoads ⟨span⟩ with
      | some v => .ok v
      | none => .error "json.JSONDecodeError"

/-- Walk to the closing brace matching the opening brace that starts the
input, accumulating the span (depth counting; `depth` is the number of
currently open braces). -/
def balancedTake (depth : Nat) : List Char → Option (List Char)
  | [] => none
  | c :: rest =>
    if c = lbrace then (balancedTake (depth + 1) rest).map (c :: ·)
    else if c = rbrace then
      match depth with
      | 0 => none
      | 1 => some [c]
      | d + 2 => (balancedTake (d + 1) rest).map (c :: ·)
    else (balancedTake depth rest).map (c :: ·)

/-- Modelled from the spec's words (§4.4): "search the remaining text for
the first balanced `\x7b...\x7d` span".  This is the comparison definition for
the refinement claim about the decoder fallback; the source uses the
greedy regex span instead. -/
def firstBalancedSpan (cs : List Char) : Option (List Char) :=
  balancedTake 0 (cs.dropWhile (fun c => c != lbrace))

/-- Modelled from the spec's words (§4.4): the decode algorithm with the
first *balanced* span as fallback, as the spec sentence describes it. -/
def specTolerantDecode (raw : String) : Except String PyJson :=
  let text := pyStripL (fenceStripL raw.data)
  match pyJsonLoads ⟨text⟩ with
  | some v => .ok v
  | none =>
    match firstBalancedSpan text with
    | none => .error "json.JSONDecodeError"
    | some span =>
      match pyJsonLoads ⟨span⟩ with
      | some v => .ok v
      | none => .error "json.JSONDecodeError"

/-! ## Python `str.format` (named fields) -/

/-- One pass of `str.format` over the template characters: `\x7b\x7b` and
`\x7d\x7d` are escapes, `\x7bname\x7d` is replaced by the named argument,
a missing name raises `KeyError`, a lone brace raises `ValueError`.
(Conversion and format-spec suffixes of a replacement field are not
modelled; no template in this repository uses them.) -/
def pyFormatL (args : List (String × String)) : Nat → List Char →
    Except String (List Char)
  | 0, _ => .error "format: fuel"
  | _ + 1, [] => .ok []
  | fuel + 1, c :: rest =>
    if c = lbrace then
      match rest with
      | [] => .error "ValueError: Single brace in format string"
      | c2 :: rest2 =>
        if c2 = lbrace then (pyFormatL args fuel rest2).map (lbrace :: ·)
        else
          let name := (c2 :: rest2).takeWhile (fun x => x != rbrace)
          match (c2 :: rest2).dropWhile (fun x => x != rbrace) with
          | _ :: rest3 =>
            match lookupStr args ⟨name⟩ with
            | some v => (pyFormatL args fuel rest3).map (v.data ++ ·)
            | none => .error ("KeyError: " ++ ⟨name⟩)
          | [] => .error "ValueError: Single brace in format string"
    else if c = rbrace then
      match rest with
      | [] => .error "ValueError: Single brace in format string"
      | c2 :: rest2 =>
        if c2 = rbrace then (pyFormatL args fuel rest2).map (rbrace :: ·)
        else .error "ValueError: Single brace in format string"
    else (pyFormatL args fuel rest).map (c :: ·)

/-- Python `template.format(**args)`; an `.error` models the raised
exception. -/
def pyFormat (template : String) (args : List (String × String)) :
    Except String String :=
  (pyFormatL args (template.data.length + 1) template.data).map (⟨·⟩)

/-! ## The QueryResult record and the provider registry interface -/

/-- Shared string constants (dict keys and sentinels of the sources). -/
def emptyStr : String := ""

/-- The provider/model sentinel of the no-provider failure record. -/
def sentinelNone : String := "none"

/-- The error text of the no-provider failure record. -/
def noProvidersMsg : String := "No providers available"

/-- Dict key `"tool_call"`. -/
def kToolCall : String := "tool_call"

/-- Dict key `"final_answer"`. -/
def kFinalAnswer : String := "final_answer"

/-- Dict key `"name"`. -/
def kName : String := "name"

/-- Dict key `"arguments"`. -/
def kArguments : String := "arguments"

/-- Dict key `"answer"`. -/
def kAnswer : String := "answer"

/-- Format field `"topic"`. -/
def kTopic : String := "topic"

/-- Format field `"tools"`. -/
def kTools : String := "tools"

/-- Format field `"tool_output"`. -/
def kToolOutput : String := "tool_output"

/-- Dict key `"text"`. -/
def kText : String := "text"

/-- Dict key `"timezone"`. -/
def kTimezone : String := "timezone"

/-- The `response` field of a QueryResult: plain text (chapters 4/5 and the
langchain chapter 7), a parsed JSON object (chapter 6), or the tool payload
dict `\x7btool_call, tool_output, final_answer\x7d` (llamaindex chapter 7). -/
inductive RespVal where
  | text (s : String)
  | json (j : PyJson)
  | tool (toolCall : PyJson) (toolOutput : Option String) (finalAnswer : String)

/-- The uniform result dict returned by every `ask_question` variant.
Fields that some variants omit from the Python dict are `Option`s
(`none` = key absent). -/
structure QueryResult where
  success : Bool
  provider : String
  model : String
  prompt : String
  response : Option RespVal
  error : Option String := none
  temperature : Option Rat := none
  maxTokens : Option Int := none
  sessionId : Option String := none
  rawResponse : Option String := none
  rawAnswer : Option PyJson := none

/-- The environment the managers read from the (out-of-src) ProviderRegistry:
the ordered list of available providers and the default-model catalog. -/
structure GatewayEnv where
  available : List String
  defaultModel : String → String

/-- `_resolve_provider` (chapter 4, langchain lines 55-61 and llamaindex
lines 61-67): the requested provider when truthy and available, else the
first available provider, else `None`. -/
def resolve_provider (available : List String) (provider : Option String) :
    Option String :=
  if truthyOpt provider && available.contains (provider.getD emptyStr) then provider
  else
    match available with
    | [] => none
    | a :: _ => some a

/-! ## `ask_question`, chapters 4 to 6 -/

/-- `ask_question` of chapter 4 (langchain lines 74-119; the llamaindex
variant builds the same dicts).  `invokeResult` abstracts client creation
plus the remote call plus text extraction: `.error` is the text of the
exception the `try` block catches. -/
def ch4_ask_question (env : GatewayEnv) (topic : String) (provider : Option String)
    (template : String) (maxTokens : Int) (temperature : Rat)
    (invokeResult : Except String String) : Except String QueryResult :=
  match pyFormat template [(kTopic, topic)] with
  | .error e => .error e
  | .ok prompt =>
    if !truthyOpt (resolve_provider env.available provider) then
      .ok { success := false, provider := sentinelNone, model := sentinelNone,
            prompt := prompt, response := none, error := some noProvidersMsg }
    else
      match invokeResult with
      | .ok text =>
        .ok { success := true,
              provider := (resolve_provider env.available provider).getD emptyStr,
              model := env.defaultModel
                ((resolve_provider env.available provider).getD emptyStr),
              prompt := prompt, response := some (.text text),
              temperature := some temperature, maxTokens := some maxTokens }
      | .error e =>
        .ok { success := false,
              provider := (resolve_provider env.available provider).getD emptyStr,
              model := env.defaultModel
                ((resolve_provider env.available provider).getD emptyStr),
              prompt := prompt, response := none, error := some e,
              temperature := some temperature, maxTokens := some maxTokens }

/-- `ask_question` of chapter 5 (langchain `llm_memory_gateway.py` lines
61-104, llamaindex lines 55-108): falls back to the chapter 4 variant when
memory is disabled, otherwise the same record plus `session_id`. -/
def ch5_ask_question (env : GatewayEnv) (memoryEnabled : Bool) (topic : String)
    (provider : Option String) (template : String) (maxTokens : Int)
    (temperature : Rat) (sessionId : String)
    (invokeResult : Except String String) : Except String QueryResult :=
  if !memoryEnabled then
    ch4_ask_question env topic provider template maxTokens temperature invokeResult
  else
    match pyFormat template [(kTopic, topic)] with
    | .error e => .error e
    | .ok prompt =>
      if !truthyOpt (resolve_provider env.available provider) then
        .ok { success := false, provider := sentinelNone, model := sentinelNone,
              prompt := prompt, response := none, error := some noProvidersMsg }
      else
        match invokeResult with
        | .ok text =>
          .ok { success := true,
                provider := (resolve_provider env.available provider).getD emptyStr,
                model := env.defaultModel
                  ((resolve_provider env.available provider).getD emptyStr),
                prompt := prompt, response := some (.text text),
                temperature := some temperature, maxTokens := some maxTokens,
                sessionId := some sessionId }
        | .error e =>
          .ok { success := false,
                provider := (resolve_provider env.available provider).getD emptyStr,
                model := env.defaultModel
                  ((resolve_provider env.available provider).getD emptyStr),
                prompt := prompt, response := none, error := some e,
                temperature := some temperature, maxTokens := some maxTokens,
                sessionId := some sessionId }

/-- `ask_question` of chapter 6 (`llm_structured_gateway.py` lines 56-86):
delegates to the chapter 5 variant (the persistence subclass does not
override `ask_question`), then decodes the response.  `parsed.get` on a
non-dict JSON value raises `AttributeError` outside the `try`, hence the
`.error` in that branch. -/
def ch6_ask_question (env : GatewayEnv) (memoryEnabled : Bool) (topic : String)
    (provider : Option String) (template : String) (maxTokens : Int)
    (temperature : Rat) (sessionId : String)
    (invokeResult : Except String String) : Except String QueryResult :=
  match ch5_ask_question env memoryEnabled topic provider template maxTokens
    temperature sessionId invokeResult with
  | .error e => .error e
  | .ok result =>
    if !result.success then
      .ok result
    else
      let raw := match result.response with
        | some (.text s) => s
        | some (.json j) => pyStr j
        | some (.tool _ _ fa) => fa
        | none => emptyStr
      match parse_structured_response raw with
      | .error e =>
        .ok { result with
              success := false,
              error := some ("Failed to parse structured JSON response: " ++ e),
              response := none, rawResponse := some raw }
      | .ok parsed =>
        match parsed with
        | .obj fields =>
          .ok { result with
                response := some (.json parsed),
                rawAnswer := some ((PyJson.lookup fields kAnswer).getD (.str raw)) }
        | _ => Except.error ("AttributeError: object has no attribute get")

/-! ## Chapter 7 tools (`tools.py`) -/

/-- `ToolDefinition` (`tools.py` lines 19-25). -/
structure ToolDefinition where
  name : String
  description : String
  parameters : List (String × String)

/-- `TOOL_DEFINITIONS` (`tools.py` lines 54-65). -/
def TOOL_DEFINITIONS : List ToolDefinition :=
  [{ name := "format_markdown_to_html",
     description := "Convert markdown text into HTML.",
     parameters := [(kText, "string - markdown content")] },
   { name := "get_datetime",
     description := "Get the current datetime in a timezone (e.g. UTC, Europe/Madrid).",
     parameters := [(kTimezone, "string - IANA timezone")] }]

/-- `build_tools_prompt` (`tools.py` lines 88-94). -/
def build_tools_prompt : String :=
  String.intercalate ("\n") (TOOL_DEFINITIONS.map (fun tool =>
    "- " ++ tool.name ++ ": " ++ tool.description ++ " Params: " ++
      String.intercalate (", ") (tool.parameters.map (fun kv =>
        kv.1 ++ " (" ++ kv.2 ++ ")"))))

/-- `run_tool` (`tools.py` lines 79-85) together with the argument
extraction of the two handlers (lines 46-51): dispatch by name, and the
"Unknown action" string for anything else.  The markdown renderer and the
clock are external effects, abstracted as the two function parameters. -/
def run_tool (markdownFn datetimeFn : String → String) (action : String)
    (parameters : List (String × PyJson)) : String :=
  if action = "format_markdown_to_html" then
    markdownFn (pyStr ((PyJson.lookup parameters kText).getD (.str emptyStr)))
  else if action = "get_datetime" then
    datetimeFn (pyStr ((PyJson.lookup parameters kTimezone).getD (.str "UTC")))
  else "Unknown action: " ++ action

/-- `TOOLS_TEMPLATE` of the llamaindex chapter 7 gateway (lines 30-48),
after the `.strip()` applied at definition site.  `\x7b` and `\x7d` are the
literal braces of the Python template (doubled braces are `format` escapes). -/
def TOOLS_TEMPLATE : String :=
  "You are a helpful assistant with access to external tools.\n\nAvailable tools:\n{tools}\n\nFor every response, return strict JSON with this shape:\n\x7b\x7b\n  \"tool_call\": null OR \x7b\x7b\"name\": \"tool_name\", \"arguments\": \x7b\x7b\"arg\": \"value\"\x7d\x7d\x7d\x7d,\n  \"final_answer\": \"string\"\n\x7d\x7d\n\nRules:\n- If no tool is needed, set tool_call to null.\n- If a tool is needed, set tool_call and keep final_answer short (what you expect to answer after tool execution).\n- Return JSON only.\n\nUser topic: {topic}"

/-- `FOLLOW_UP_TEMPLATE` of the llamaindex chapter 7 gateway (lines 50-62),
after the `.strip()` applied at definition site. -/
def FOLLOW_UP_TEMPLATE : String :=
  "You already requested a tool and now have the result.\n\nOriginal user topic: {topic}\nTool call: {tool_call}\nTool output: {tool_output}\n\nReturn strict JSON:\n\x7b\x7b\n  \"tool_call\": null,\n  \"final_answer\": \"final response for the user\"\n\x7d\x7d"

/-- The observable outcome of the llamaindex chapter 7 `ask_question`:
its returned dict (or escaped exception), the prompts sent to the provider
in order, and the `run_tool` invocations in order (the latter two are
instrumentation, recorded exactly where the source performs the calls). -/
structure ToolsResult where
  result : Except String QueryResult
  providerPrompts : List String
  toolCalls : List (String × List (String × PyJson))

/-- The failure dict of the llamaindex chapter 7 `ask_question` `except`
branch (lines 158-169). -/
def ch7x_fail (pv model prompt : String) (temperature : Rat) (maxTokens : Int)
    (sessionId : String) (e : String) : QueryResult :=
  { success := false, provider := pv, model := model, prompt := prompt,
    response := none, error := some e, temperature := some temperature,
    maxTokens := some maxTokens, sessionId := some sessionId }

/-- `ask_question` of the llamaindex chapter 7 gateway (lines 97-169).
`resp1`/`resp2` abstract the two `_invoke_json_step` provider calls up to
text extraction; the JSON decoding of each step is the real
`_extract_json_object`.  `first_step.get` on a non-dict decodes raises
`AttributeError`, which the surrounding `try` catches. -/
def ch7x_ask_question (env : GatewayEnv) (markdownFn datetimeFn : String → String)
    (topic : String) (provider : Option String) (template : String)
    (maxTokens : Int) (temperature : Rat) (sessionId : String)
    (resp1 resp2 : Except String String) : ToolsResult :=
  match pyFormat template [(kTopic, topic), (kTools, build_tools_prompt)] with
  | .error e => ⟨.error e, [], []⟩
  | .ok prompt =>
    let p := resolve_provider env.available provider
    if !truthyOpt p then
      ⟨.ok { success := false, provider := sentinelNone, model := sentinelNone,
             prompt := prompt, response := none, error := some noProvidersMsg },
       [], []⟩
    else
      let pv := p.getD emptyStr
      let model := env.defaultModel pv
      match resp1 with
      | .error e => ⟨.ok (ch7x_fail pv model prompt temperature maxTokens sessionId e), [prompt], []⟩
      | .ok txt1 =>
        match extract_json_object txt1 with
        | .error e => ⟨.ok (ch7x_fail pv model prompt temperature maxTokens sessionId e), [prompt], []⟩
        | .ok first =>
          match first with
          | .obj fs1 =>
            let toolCall : PyJson := (PyJson.lookup fs1 kToolCall).getD .null
            let finalAnswer : String :=
              ⟨pyStripL (pyStr ((PyJson.lookup fs1 kFinalAnswer).getD (.str emptyStr))).data⟩
            let noTool : ToolsResult :=
              ⟨.ok { success := true, provider := pv, model := model, prompt := prompt,
                     response := some (.tool toolCall none finalAnswer),
                     rawAnswer := some (.str finalAnswer),
                     temperature := some temperature, maxTokens := some maxTokens,
                     sessionId := some sessionId },
               [prompt], []⟩
            match toolCall with
            | .obj tcf =>
              if pyTruthy ((PyJson.lookup tcf kName).getD .null) then
                let toolName := pyStr ((PyJson.lookup tcf kName).getD .null)
                let argsRaw := (PyJson.lookup tcf kArguments).getD .null
                let argsVal := if pyTruthy argsRaw then argsRaw else .obj []
                let toolArgs := match argsVal with
                  | .obj afs => afs
                  | _ => []
                let toolOutput := run_tool markdownFn datetimeFn toolName toolArgs
                match pyFormat FOLLOW_UP_TEMPLATE
                    [(kTopic, topic), (kToolCall, jsonDumps toolCall),
                     (kToolOutput, toolOutput)] with
                | .error e =>
                  ⟨.ok (ch7x_fail pv model prompt temperature maxTokens sessionId e),
                   [prompt], [(toolName, toolArgs)]⟩
                | .ok followUp =>
                  match resp2 with
                  | .error e =>
                    ⟨.ok (ch7x_fail pv model prompt temperature maxTokens sessionId e),
                     [prompt, followUp], [(toolName, toolArgs)]⟩
                  | .ok txt2 =>
                    match extract_json_object txt2 with
                    | .error e =>
                      ⟨.ok (ch7x_fail pv model prompt temperature maxTokens sessionId e),
                       [prompt, followUp], [(toolName, toolArgs)]⟩
                    | .ok second =>
                      match second with
                      | .obj fs2 =>
                        let fa2 : String :=
                          ⟨pyStripL (match PyJson.lookup fs2 kFinalAnswer with
                            | some v => pyStr v
                            | none => finalAnswer).data⟩
                        let finalA := if fa2 = emptyStr then finalAnswer else fa2
                        ⟨.ok { success := true, provider := pv, model := model,
                               prompt := prompt,
                               response := some (.tool toolCall (some toolOutput) finalA),
                               rawAnswer := some (.str finalA),
                               temperature := some temperature,
                               maxTokens := some maxTokens,
                               sessionId := some sessionId },
                         [prompt, followUp], [(toolName, toolArgs)]⟩
                      | _ =>
                        ⟨.ok (ch7x_fail pv model prompt temperature maxTokens sessionId
                              ("AttributeError: object has no attribute get")),
                         [prompt, followUp], [(toolName, toolArgs)]⟩
              else noTool
            | _ => noTool
          | _ =>
            ⟨.ok (ch7x_fail pv model prompt temperature maxTokens sessionId
                  ("AttributeError: object has no attribute get")),
             [prompt], []⟩

/-! ## Chapter 7 langchain gateway (`TOOL:` syntax) -/

/-- `\w` of the Python regex (ASCII word characters). -/
def isReWordChar (c : Char) : Bool := c.isAlphanum || c = '_'

/-- Quote characters removed by `.strip("\"'")`. -/
def isQuoteChar (c : Char) : Bool := c = '"' || c = squote

/-- `.strip("\"'")` on a character list. -/
def stripQuotes (cs : List Char) : List Char :=
  ((cs.dropWhile isQuoteChar).reverse.dropWhile isQuoteChar).reverse

/-- Match of the regex `TOOL:\s*(\w+)\s+with\s+(.*)` anchored at the start
of the input (the character classes are disjoint, so greedy matching needs
no backtracking). -/
def matchToolAt (cs : List Char) : Option (String × String) :=
  match cs with
  | 'T' :: 'O' :: 'O' :: 'L' :: ':' :: r0 =>
    let r1 := r0.dropWhile isPyWs
    let name := r1.takeWhile isReWordChar
    if name = [] then none
    else
      let r2 := r1.dropWhile isReWordChar
      if r2.takeWhile isPyWs = [] then none
      else
        match r2.dropWhile isPyWs with
        | 'w' :: 'i' :: 't' :: 'h' :: r3 =>
          if r3.takeWhile isPyWs = [] then none
          else
            let r4 := r3.dropWhile isPyWs
            some (⟨name⟩, ⟨r4.takeWhile (fun c => c != '\n')⟩)
        | _ => none
  | _ => none

/-- `re.search` of that pattern: the match at the leftmost position. -/
def extract_tool_request : List Char → Option (String × String)
  | [] => none
  | c :: rest =>
    match matchToolAt (c :: rest) with
    | some r => some r
    | none => extract_tool_request rest

/-- Dict assignment `args[key] = val` (upsert keeping first position). -/
def upsertStr (l : List (String × String)) (k v : String) : List (String × String) :=
  if l.any (fun kv => kv.1 = k) then
    l.map (fun kv => if kv.1 = k then (k, v) else kv)
  else l ++ [(k, v)]

/-- Python `str.split` with a one-character separator. -/
def splitOnChar (sep : Char) : List Char → List (List Char)
  | [] => [[]]
  | c :: rest =>
    let r := splitOnChar sep rest
    if c = sep then [] :: r
    else
      match r with
      | h :: t => (c :: h) :: t
      | [] => [[c]]

/-- The argument parsing of `_extract_tool_request` (chapter 7 langchain
lines 66-72): split on commas, take `key=value` parts, strip whitespace,
strip surrounding quotes from the value. -/
def parseToolArgs (params : String) : List (String × String) :=
  (splitOnChar ',' params.data).foldl (fun args pcs =>
    if pcs.contains '=' then
      let key : String := ⟨pyStripL (pcs.takeWhile (fun c => c != '='))⟩
      let val : String := ⟨stripQuotes (pyStripL ((pcs.dropWhile (fun c => c != '=')).tail))⟩
      upsertStr args key val
    else args) []

/-- The `try` block body of the langchain chapter 7 `ask_question`
(lines 94-118): invoke, optionally run the requested tool and append its
output to the text. -/
def ch7l_body (env : GatewayEnv) (markdownFn datetimeFn : String → String)
    (prompt pv : String) (maxTokens : Int) (temperature : Rat)
    (sessionId : String) (invokeResult : Except String String) : QueryResult :=
  let model := env.defaultModel pv
  match invokeResult with
  | .error e =>
    { success := false, provider := pv, model := model, prompt := prompt,
      response := none, error := some e, temperature := some temperature,
      maxTokens := some maxTokens, sessionId := some sessionId }
  | .ok text =>
    let text2 := match extract_tool_request text.data with
      | none => text
      | some nm =>
        text ++ "\n\n[TOOL OUTPUT]: " ++
          run_tool markdownFn datetimeFn nm.1
            ((parseToolArgs nm.2).map (fun kv => (kv.1, PyJson.str kv.2)))
    { success := true, provider := pv, model := model, prompt := prompt,
      response := some (.text text2), temperature := some temperature,
      maxTokens := some maxTokens, sessionId := some sessionId }

/-- `ask_question` of the langchain chapter 7 gateway (lines 74-131):
inline provider resolution, then the `try` block; `template.format` is
outside the `try`. -/
def ch7l_ask_question (env : GatewayEnv) (markdownFn datetimeFn : String → String)
    (topic : String) (provider : Option String) (template : String)
    (maxTokens : Int) (temperature : Rat) (sessionId : String)
    (invokeResult : Except String String) : Except String QueryResult :=
  match pyFormat template [(kTopic, topic)] with
  | .error e => .error e
  | .ok prompt =>
    if truthyOpt provider && env.available.contains (provider.getD emptyStr) then
      .ok (ch7l_body env markdownFn datetimeFn prompt (provider.getD emptyStr)
        maxTokens temperature sessionId invokeResult)
    else
      match env.available with
      | [] =>
        .ok { success := false, provider := sentinelNone, model := sentinelNone,
              prompt := prompt, response := none, error := some noProvidersMsg }
      | a :: _ =>
        .ok (ch7l_body env markdownFn datetimeFn prompt a
          maxTokens temperature sessionId invokeResult)

/-! ## Chapter 5 session memory and `reset_memory` -/

/-- One entry of the returned `removed_sessions` list: the string sentinel
`"ALL"` or a `(provider, session)` tuple. -/
inductive RemovedEntry where
  | all
  | key (k : String × String)
deriving DecidableEq, Repr

/-- The two key-indexed dicts of the chapter 5 langchain manager:
`self.chains` (values opaque, only keys modelled) and `self.histories`
(key to ordered turns).  The llamaindex manager's `self.chat_engines` /
`self.memories` pair has the same shape and the same `reset_memory` code. -/
structure MemState where
  chains : List (String × String)
  histories : List ((String × String) × List (String × String))

/-- The stored session keys (`self.histories.keys()`), in insertion order. -/
def MemState.histKeys (st : MemState) : List (String × String) :=
  st.histories.map (fun kv => kv.1)

/-- `reset_memory` (chapter 5 langchain `llm_memory_gateway.py` lines
115-139; the llamaindex variant lines 122-147 is identical up to dict
names).  `dict.pop(key, None)` on the unique-keyed dicts is modelled by
`filter`.  Both filters truthy: pop the one key (present or not).
Provider only: pop every stored key with that provider.  Session only:
pop every stored key with that session id.  Neither: clear both dicts and
return the `"ALL"` sentinel. -/
def reset_memory (st : MemState) (provider sessionId : Option String) :
    MemState × List RemovedEntry :=
  if truthyOpt provider && truthyOpt sessionId then
    let k := (provider.getD emptyStr, sessionId.getD emptyStr)
    ({ chains := st.chains.filter (fun c => c ≠ k),
       histories := st.histories.filter (fun kv => kv.1 ≠ k) }, [.key k])
  else if truthyOpt provider then
    let pv := provider.getD emptyStr
    let matching := st.histKeys.filter (fun k => k.1 = pv)
    ({ chains := st.chains.filter (fun c => !(matching.contains c)),
       histories := st.histories.filter (fun kv => kv.1.1 ≠ pv) },
     matching.map .key)
  else if truthyOpt sessionId then
    let sv := sessionId.getD emptyStr
    let matching := st.histKeys.filter (fun k => k.2 = sv)
    ({ chains := st.chains.filter (fun c => !(matching.contains c)),
       histories := st.histories.filter (fun kv => kv.1.2 ≠ sv) },
     matching.map .key)
  else
    ({ chains := [], histories := [] }, [.all])

/-! ## Durable session files (chapter 5 persistence variants) -/

/-- The file name built by `_session_file_path` (langchain persist variant
lines 25-28, llamaindex persist variant lines 27-30), relative to the
fixed `sessions` directory. -/
def session_file_name (provider sessionId : String) : String :=
  provider ++ "__" ++ sessionId ++ ".json"

/-- The provider identifiers of the registry, as enumerated by the
`_create_client` dispatch of both chapter 4 gateways (langchain lines
23-53, llamaindex lines 27-59). -/
def registryProviders : List String := ["anthropic", "openai", "google", "xai"]

/-- Key lookup in a cache keyed by `(provider, session)`. -/
def lookupKey {α : Type} (l : List ((String × String) × α)) (k : String × String) :
    Option α :=
  match l with
  | [] => none
  | (k', v) :: rest => if k' = k then some v else lookupKey rest k

/-- `_get_chat_store` (llamaindex persist variant lines 35-46): return the
cached store for the key; otherwise load it from the session file when that
exists (`SimpleChatStore.from_persist_path`, abstracted as the `files` map
from file name to stored content), otherwise a fresh empty store; cache it
either way.  Returns the store and the updated cache. -/
def get_chat_store {Store : Type} (fresh : Store) (files : String → Option Store)
    (cache : List ((String × String) × Store)) (provider sessionId : String) :
    Store × List ((String × String) × Store) :=
  match lookupKey cache (provider, sessionId) with
  | some st => (st, cache)
  | none =>
    let st := match files (session_file_name provider sessionId) with
      | some st => st
      | none => fresh
    (st, cache ++ [((provider, sessionId), st)])

/-! ## Generic list helpers -/

/-- An element found by `getLast?` is a member. -/
theorem mem_of_getLastOpt {α : Type} {l : List α} {a : α} (h : l.getLast? = some a) :
    a ∈ l := by
  induction l with
  | nil => simp at h
  | cons b t ih =>
    cases t with
    | nil => simp_all
    | cons c t' =>
      rw [List.getLast?_cons_cons] at h
      exact List.mem_cons_of_mem _ (ih h)

/-- The head surviving `dropWhile` falsifies the predicate. -/
theorem head_dropWhile_false {p : Char → Bool} {l : List Char} {c : Char}
    (h : (l.dropWhile p).head? = some c) : p c = false := by
  induction l with
  | nil => simp at h
  | cons a t ih =>
    by_cases hp : p a
    · rw [List.dropWhile_cons_of_pos hp] at h; exact ih h
    · rw [List.dropWhile_cons_of_neg hp] at h
      simp at h
      subst h
      simpa using hp

/-- Decomposition through a `cons`. -/
theorem decomp_cons {α : Type} (a : α) {l pre : List α} {c : α} {rest : List α}
    (h : l = pre ++ c :: rest) : ∃ pre', a :: l = pre' ++ c :: rest :=
  ⟨a :: pre, by simp [h]⟩

/-- Decomposition through a left append. -/
theorem decomp_append {α : Type} (a : List α) {l pre : List α} {c : α} {rest : List α}
    (h : l = pre ++ c :: rest) : ∃ pre', a ++ l = pre' ++ c :: rest :=
  ⟨a ++ pre, by simp [h]⟩

/-- Decomposition through `dropWhile`. -/
theorem decomp_dropWhile (p : Char → Bool) {l : List Char} {pre : List Char} {c : Char}
    {rest : List Char} (h : l.dropWhile p = pre ++ c :: rest) :
    ∃ pre', l = pre' ++ c :: rest := by
  refine ⟨l.takeWhile p ++ pre, ?_⟩
  conv_lhs => rw [← List.takeWhile_append_dropWhile (p := p) (l := l)]
  rw [h, List.append_assoc]

/-- `dropWhile` is the identity when the head falsifies the predicate. -/
theorem dropWhile_eq_self_of_head {p : Char → Bool} {l : List Char}
    (h : ∀ c, l.head? = some c → p c = false) : l.dropWhile p = l := by
  cases l with
  | nil => rfl
  | cons a t =>
    have := h a rfl
    rw [List.dropWhile_cons_of_neg (by simp [this])]

/-! ## `pyStripL` facts -/

/-- The strip result is a prefix of the front-stripped list. -/
theorem pyStripL_prefix (cs : List Char) : pyStripL cs <+: cs.dropWhile isPyWs := by
  unfold pyStripL
  have h1 : ((cs.dropWhile isPyWs).reverse.dropWhile isPyWs) <:+ (cs.dropWhile isPyWs).reverse :=
    List.dropWhile_suffix _
  conv_rhs => rw [← List.reverse_reverse (cs.dropWhile isPyWs)]
  exact (List.reverse_prefix).mpr h1

/-- The head of the strip result is not whitespace. -/
theorem pyStripL_head {cs : List Char} {c : Char}
    (h : (pyStripL cs).head? = some c) : isPyWs c = false := by
  obtain ⟨t, ht⟩ := pyStripL_prefix cs
  apply head_dropWhile_false (l := cs)
  rw [← ht]
  cases hsp : pyStripL cs with
  | nil => rw [hsp] at h; simp at h
  | cons a l =>
    rw [hsp] at h
    simp at h
    subst h
    simp

/-- The last character of the strip result is not whitespace. -/
theorem pyStripL_last {cs : List Char} {c : Char}
    (h : (pyStripL cs).getLast? = some c) : isPyWs c = false := by
  unfold pyStripL at h
  rw [List.getLast?_reverse] at h
  exact head_dropWhile_false h

/-- Strip is the identity on a list with non-whitespace ends. -/
theorem pyStripL_eq_self {cs : List Char}
    (hh : ∀ c, cs.head? = some c → isPyWs c = false)
    (hl : ∀ c, cs.getLast? = some c → isPyWs c = false) : pyStripL cs = cs := by
  unfold pyStripL
  rw [dropWhile_eq_self_of_head hh]
  rw [dropWhile_eq_self_of_head (by
    intro c hc
    rw [List.head?_reverse] at hc
    exact hl c hc)]
  exact List.reverse_reverse cs

/-- Strip is idempotent. -/
theorem pyStripL_idem (cs : List Char) : pyStripL (pyStripL cs) = pyStripL cs :=
  pyStripL_eq_self (fun _ h => pyStripL_head h) (fun _ h => pyStripL_last h)

/-! ## Parser metatheory: every successful parse starts and ends with a
token character (needed for the fence-check analysis of the decoders) -/

set_option maxHeartbeats 1000000

def isValueStart (c : Char) : Bool :=
  c = lbrace || c = '[' || c = '"' || c = 't' || c = 'f' || c = 'n' || c = '-' || c.isDigit

theorem parseValue_head {f : Nat} {cs : List Char} {v : PyJson} {rest : List Char}
    (h : parseValue f cs = some (v, rest)) :
    ∃ c cs', cs = c :: cs' ∧ isValueStart c = true := by
  match f, cs with
  | 0, _ => simp [parseValue] at h
  | _ + 1, [] => simp [parseValue] at h
  | fuel + 1, c :: rest' =>
    refine ⟨c, rest', rfl, ?_⟩
    unfold parseValue at h
    split at h
    · rename_i hc; simp [isValueStart, hc]
    · split at h
      · rename_i hc; simp [isValueStart, hc]
      · split at h
        · rename_i hc; simp [isValueStart, hc]
        · split at h
          · rename_i hc; simp [isValueStart, hc]
          · split at h
            · rename_i hc; simp [isValueStart, hc]
            · split at h
              · rename_i hc; simp [isValueStart, hc]
              · split at h
                · rename_i hc
                  rcases hc with hc | hc <;> simp [isValueStart, hc]
                · simp at h

theorem readHex4_consumed {rest : List Char} {n : Nat} {rs : List Char}
    (h : readHex4 rest = some (n, rs)) :
    ∃ p1 p2 p3 p4, rest = p1 :: p2 :: p3 :: p4 :: rs := by
  match rest with
  | [] => simp [readHex4] at h
  | [_] => simp [readHex4] at h
  | [_, _] => simp [readHex4] at h
  | [_, _, _] => simp [readHex4] at h
  | a1 :: a2 :: a3 :: a4 :: r4 =>
    refine ⟨a1, a2, a3, a4, ?_⟩
    rw [readHex4] at h
    cases hv1 : hexVal a1 <;> rw [hv1] at h
    · simp at h
    · cases hv2 : hexVal a2 <;> rw [hv2] at h
      · simp at h
      · cases hv3 : hexVal a3 <;> rw [hv3] at h
        · simp at h
        · cases hv4 : hexVal a4 <;> rw [hv4] at h
          · simp at h
          · simp at h
            simp [h.2]

theorem readEscape_consumed {rest : List Char} {ch : Char} {rs : List Char}
    (h : readEscape rest = some (ch, rs)) : ∃ pre, rest = pre ++ rs := by
  match rest with
  | [] => simp [readEscape] at h
  | e :: rest2 =>
    rw [readEscape] at h
    cases hesc : escChar e <;> rw [hesc] at h
    · by_cases hu : e = 'u'
      · rw [if_pos hu] at h
        cases hh : readHex4 rest2 <;> rw [hh] at h
        · simp at h
        · rename_i nr
          simp at h
          obtain ⟨p1, p2, p3, p4, hp⟩ := readHex4_consumed (show readHex4 rest2 = some (nr.1, nr.2) by rw [hh])
          exact ⟨e :: p1 :: p2 :: p3 :: [p4], by simp [hp, h.2]⟩
      · rw [if_neg hu] at h
        simp at h
    · simp at h
      exact ⟨[e], by simp [h.2]⟩

theorem parseStringBody_consumed :
    ∀ (f : Nat) (cs b rest : List Char), parseStringBody f cs = some (b, rest) →
      ∃ pre, cs = pre ++ '"' :: rest := by
  intro f
  induction f with
  | zero => intro cs b rest h; simp [parseStringBody] at h
  | succ fuel ih =>
    intro cs b rest h
    match cs with
    | [] => simp [parseStringBody] at h
    | c :: cs' =>
      rw [parseStringBody] at h
      split at h
      · rename_i hq
        simp only [Option.some.injEq, Prod.mk.injEq] at h
        exact ⟨[], by simp [hq, h.2]⟩
      · split at h
        · cases hre : readEscape cs' <;> rw [hre] at h
          · simp at h
          · rename_i chrs
            rw [Option.map_eq_some'] at h
            obtain ⟨⟨b', r'⟩, hpb, heq⟩ := h
            simp only [Prod.mk.injEq] at heq
            obtain ⟨pre0, hpre0⟩ := readEscape_consumed (show readEscape cs' = some (chrs.1, chrs.2) by rw [hre])
            obtain ⟨pre, hpre⟩ := ih chrs.2 b' r' hpb
            rw [← heq.2]
            exact ⟨c :: pre0 ++ pre, by simp [hpre0, hpre]⟩
        · split at h
          · simp at h
          · rw [Option.map_eq_some'] at h
            obtain ⟨⟨b', r'⟩, hpb, heq⟩ := h
            simp only [Prod.mk.injEq] at heq
            obtain ⟨pre, hpre⟩ := ih cs' b' r' hpb
            rw [← heq.2]
            exact ⟨c :: pre, by simp [hpre]⟩

theorem getLast_concat_cases (a : Char) (l : List Char) :
    (l = [] ∧ (a :: l).getLast? = some a) ∨ (a :: l).getLast? = l.getLast? := by
  cases l with
  | nil => exact Or.inl ⟨rfl, rfl⟩
  | cons b t =>
    exact Or.inr (List.getLast?_append_of_ne_nil [a] (by simp))

theorem getLast_append_cases (l1 l2 : List Char) :
    (l2 = [] ∧ (l1 ++ l2).getLast? = l1.getLast?) ∨ (l1 ++ l2).getLast? = l2.getLast? := by
  cases l2 with
  | nil => exact Or.inl ⟨rfl, by simp⟩
  | cons b t =>
    exact Or.inr (List.getLast?_append_of_ne_nil l1 (by simp))

/-- `parseFrac` splits its input and, when non-empty, ends in a digit. -/
theorem parseFrac_decomp (cs : List Char) :
    cs = (parseFrac cs).1 ++ (parseFrac cs).2 ∧
    ((parseFrac cs).1 = [] ∨
      ∃ d, (parseFrac cs).1.getLast? = some d ∧ d.isDigit = true) := by
  unfold parseFrac
  split
  · rename_i r
    by_cases hd : r.takeWhile Char.isDigit = []
    · rw [if_pos hd]; simp
    · rw [if_neg hd]
      refine ⟨by simp [List.takeWhile_append_dropWhile], Or.inr ?_⟩
      cases hg : (r.takeWhile Char.isDigit).getLast? with
      | none => exact absurd (List.getLast?_eq_none_iff.mp hg) hd
      | some d =>
        refine ⟨d, ?_, List.mem_takeWhile_imp (mem_of_getLastOpt hg)⟩
        show ('.' :: r.takeWhile Char.isDigit).getLast? = some d
        rw [show ('.' :: r.takeWhile Char.isDigit) = ['.'] ++ r.takeWhile Char.isDigit from rfl,
           List.getLast?_append_of_ne_nil ['.'] hd]
        exact hg
  · simp

/-- `parseExp` splits its input and, when non-empty, ends in a digit. -/
theorem parseExp_decomp (cs : List Char) :
    cs = (parseExp cs).1 ++ (parseExp cs).2 ∧
    ((parseExp cs).1 = [] ∨
      ∃ d, (parseExp cs).1.getLast? = some d ∧ d.isDigit = true) := by
  unfold parseExp
  split
  · rename_i c r
    split
    · split
      · rename_i sgn r2
        split
        · by_cases hds : r2.takeWhile Char.isDigit = []
          · rw [if_pos hds]; simp
          · rw [if_neg hds]
            refine ⟨by simp [List.takeWhile_append_dropWhile], Or.inr ?_⟩
            cases hg : (r2.takeWhile Char.isDigit).getLast? with
            | none => exact absurd (List.getLast?_eq_none_iff.mp hg) hds
            | some d =>
              refine ⟨d, ?_, List.mem_takeWhile_imp (mem_of_getLastOpt hg)⟩
              show (c :: sgn :: r2.takeWhile Char.isDigit).getLast? = some d
              rw [show (c :: sgn :: r2.takeWhile Char.isDigit) =
                    [c, sgn] ++ r2.takeWhile Char.isDigit from rfl,
                 List.getLast?_append_of_ne_nil [c, sgn] hds]
              exact hg
        · rename_i hsgn
          by_cases hds : (sgn :: r2).takeWhile Char.isDigit = []
          · rw [if_pos hds]; simp
          · rw [if_neg hds]
            refine ⟨by simp [List.takeWhile_append_dropWhile], Or.inr ?_⟩
            cases hg : ((sgn :: r2).takeWhile Char.isDigit).getLast? with
            | none => exact absurd (List.getLast?_eq_none_iff.mp hg) hds
            | some d =>
              refine ⟨d, ?_, List.mem_takeWhile_imp (mem_of_getLastOpt hg)⟩
              show (c :: (sgn :: r2).takeWhile Char.isDigit).getLast? = some d
              rw [show (c :: (sgn :: r2).takeWhile Char.isDigit) =
                    [c] ++ (sgn :: r2).takeWhile Char.isDigit from rfl,
                 List.getLast?_append_of_ne_nil [c] hds]
              exact hg
      · simp
    · simp
  · simp

/-- Concatenation preserves "empty or ends in a digit". -/
theorem dlast_append {A B : List Char}
    (hA : A = [] ∨ ∃ d, A.getLast? = some d ∧ d.isDigit = true)
    (hB : B = [] ∨ ∃ d, B.getLast? = some d ∧ d.isDigit = true) :
    A ++ B = [] ∨ ∃ d, (A ++ B).getLast? = some d ∧ d.isDigit = true := by
  rcases hB with rfl | ⟨d, hd, hdig⟩
  · rcases hA with rfl | ⟨d, hd, hdig⟩
    · exact Or.inl rfl
    · exact Or.inr ⟨d, by simpa using hd, hdig⟩
  · have hBne : B ≠ [] := by intro hb; rw [hb] at hd; simp at hd
    exact Or.inr ⟨d, by rw [List.getLast?_append_of_ne_nil A hBne]; exact hd, hdig⟩

/-- A digit head before an "empty or digit-ended" tail gives a digit end. -/
theorem dlast_cons {c : Char} (digc : c.isDigit = true) {A : List Char}
    (hA : A = [] ∨ ∃ d, A.getLast? = some d ∧ d.isDigit = true) :
    ∃ d, (c :: A).getLast? = some d ∧ d.isDigit = true := by
  rcases hA with rfl | ⟨d, hd, hdig⟩
  · exact ⟨c, rfl, digc⟩
  · have hAne : A ≠ [] := by intro hb; rw [hb] at hd; simp at hd
    refine ⟨d, ?_, hdig⟩
    rw [show (c :: A) = [c] ++ A from rfl, List.getLast?_append_of_ne_nil [c] hAne]
    exact hd

/-- A digit run is empty or ends in a digit. -/
theorem dlast_takeWhile (r : List Char) :
    r.takeWhile Char.isDigit = [] ∨
      ∃ d, (r.takeWhile Char.isDigit).getLast? = some d ∧ d.isDigit = true := by
  by_cases hd : r.takeWhile Char.isDigit = []
  · exact Or.inl hd
  · cases hg : (r.takeWhile Char.isDigit).getLast? with
    | none => exact absurd (List.getLast?_eq_none_iff.mp hg) hd
    | some d =>
      exact Or.inr ⟨d, rfl, List.mem_takeWhile_imp (mem_of_getLastOpt hg)⟩

/-- `parseUNumber` splits its input and the consumed part ends in a digit. -/
theorem parseUNumber_consumed {cs t rest : List Char}
    (h : parseUNumber cs = some (t, rest)) :
    cs = t ++ rest ∧ ∃ d, t.getLast? = some d ∧ d.isDigit = true := by
  match cs with
  | [] => simp [parseUNumber] at h
  | c :: r1 =>
    rw [parseUNumber] at h
    obtain ⟨hfr_eq, hfr_last⟩ := parseFrac_decomp r1
    obtain ⟨hex_eq, hex_last⟩ := parseExp_decomp (parseFrac r1).2
    obtain ⟨hfr_eq2, hfr_last2⟩ := parseFrac_decomp (r1.dropWhile Char.isDigit)
    obtain ⟨hex_eq2, hex_last2⟩ :=
      parseExp_decomp (parseFrac (r1.dropWhile Char.isDigit)).2
    split at h
    · rename_i hc
      simp only [Option.some.injEq, Prod.mk.injEq] at h
      obtain ⟨ht, hrest⟩ := h
      constructor
      · rw [← ht, ← hrest]
        conv_lhs => rw [hfr_eq, hex_eq]
        simp [List.append_assoc]
      · rw [← ht]
        exact dlast_cons (by rw [hc]; decide) (dlast_append hfr_last hex_last)
    · split at h
      · rename_i hc0 hcd
        simp only [Option.some.injEq, Prod.mk.injEq] at h
        obtain ⟨ht, hrest⟩ := h
        constructor
        · rw [← ht, ← hrest]
          conv_lhs =>
            rw [show r1 = r1.takeWhile Char.isDigit ++ r1.dropWhile Char.isDigit from
                  (List.takeWhile_append_dropWhile (p := Char.isDigit) (l := r1)).symm,
                hfr_eq2, hex_eq2]
          simp [List.append_assoc]
        · rw [← ht]
          exact dlast_cons hcd
            (dlast_append (dlast_append (dlast_takeWhile r1) hfr_last2) hex_last2)
      · simp at h

/-- `parseNumber` splits its input: some prefix, then a digit, then the rest. -/
theorem parseNumber_consumed {cs : List Char} {lit : String} {rest : List Char}
    (h : parseNumber cs = some (lit, rest)) :
    ∃ pre d, cs = pre ++ d :: rest ∧ d.isDigit = true := by
  unfold parseNumber at h
  split at h
  · rename_i hminus
    rw [Option.map_eq_some'] at h
    obtain ⟨⟨t, r⟩, hu, heq⟩ := h
    simp only [Prod.mk.injEq] at heq
    obtain ⟨hsplit, d, hlast, hdig⟩ := parseUNumber_consumed hu
    have ht : t ≠ [] := by intro h0; rw [h0] at hlast; simp at hlast
    have hdec : t.dropLast ++ [d] = t := by
      have h1 := List.dropLast_append_getLast ht
      have h2 : t.getLast ht = d := by
        have h3 := List.getLast?_eq_getLast t ht
        rw [h3] at hlast
        exact Option.some.inj hlast
      rw [← h2]; exact h1
    have hcs : cs = '-' :: cs.tail := by
      cases cs with
      | nil => simp at hminus
      | cons a l =>
        simp at hminus
        subst hminus
        rfl
    refine ⟨'-' :: t.dropLast, d, ?_, hdig⟩
    rw [hcs, hsplit, ← heq.2, ← hdec]
    simp [List.append_assoc]
  · rw [Option.map_eq_some'] at h
    obtain ⟨⟨t, r⟩, hu, heq⟩ := h
    simp only [Prod.mk.injEq] at heq
    obtain ⟨hsplit, d, hlast, hdig⟩ := parseUNumber_consumed hu
    have ht : t ≠ [] := by intro h0; rw [h0] at hlast; simp at hlast
    have hdec : t.dropLast ++ [d] = t := by
      have h1 := List.dropLast_append_getLast ht
      have h2 : t.getLast ht = d := by
        have h3 := List.getLast?_eq_getLast t ht
        rw [h3] at hlast
        exact Option.some.inj hlast
      rw [← h2]; exact h1
    refine ⟨t.dropLast, d, ?_, hdig⟩
    rw [hsplit, ← heq.2, ← hdec]
    simp [List.append_assoc]

def isValueEnd (c : Char) : Bool :=
  c = '"' || c = ']' || c = rbrace || c = 'e' || c = 'l' || c.isDigit

theorem decomp_dropWhile_cons (p : Char → Bool) {l r : List Char} {c2 : Char}
    (h : l.dropWhile p = c2 :: r) {pre : List Char} {c : Char} {rest : List Char}
    (hr : r = pre ++ c :: rest) : ∃ pre', l = pre' ++ c :: rest :=
  decomp_dropWhile p (show l.dropWhile p = (c2 :: pre) ++ c :: rest by rw [h, hr]; rfl)

theorem ext_decomp {l pre : List Char} {cV : Char} {r4 p4 : List Char} {c : Char}
    {rest : List Char} (h : l = pre ++ cV :: r4) (h4 : r4 = p4 ++ c :: rest) :
    ∃ p, l = p ++ c :: rest :=
  ⟨pre ++ cV :: p4, by rw [h, h4]; simp⟩

theorem parse_consumed_all (f : Nat) :
    (∀ cs v rest, parseValue f cs = some (v, rest) →
      ∃ pre c, cs = pre ++ c :: rest ∧ isValueEnd c = true) ∧
    (∀ cs v rest, parseMembersStart f cs = some (v, rest) →
      ∃ pre, cs = pre ++ rbrace :: rest) ∧
    (∀ acc cs v rest, parseMembers f acc cs = some (v, rest) →
      ∃ pre, cs = pre ++ rbrace :: rest) ∧
    (∀ cs v rest, parseElemsStart f cs = some (v, rest) →
      ∃ pre, cs = pre ++ ']' :: rest) ∧
    (∀ acc cs v rest, parseElems f acc cs = some (v, rest) →
      ∃ pre, cs = pre ++ ']' :: rest) := by
  induction f with
  | zero =>
    refine ⟨?_, ?_, ?_, ?_, ?_⟩
    · intro cs v rest h; simp [parseValue] at h
    · intro cs v rest h; simp [parseMembersStart] at h
    · intro acc cs v rest h; simp [parseMembers] at h
    · intro cs v rest h; simp [parseElemsStart] at h
    · intro acc cs v rest h; simp [parseElems] at h
  | succ fuel ih =>
    obtain ⟨ihV, ihMS, ihM, ihES, ihE⟩ := ih
    refine ⟨?_, ?_, ?_, ?_, ?_⟩
    · -- parseValue
      intro cs v rest h
      match cs with
      | [] => simp [parseValue] at h
      | c :: rest' =>
        unfold parseValue at h
        split at h
        · rename_i hc
          obtain ⟨pre, hp⟩ := ihMS _ _ _ h
          obtain ⟨pre', hp'⟩ := decomp_dropWhile isJsonWs hp
          obtain ⟨pre'', hp''⟩ := decomp_cons c hp'
          exact ⟨pre'', rbrace, hp'', by simp [isValueEnd]⟩
        · split at h
          · rename_i hc
            obtain ⟨pre, hp⟩ := ihES _ _ _ h
            obtain ⟨pre', hp'⟩ := decomp_dropWhile isJsonWs hp
            obtain ⟨pre'', hp''⟩ := decomp_cons c hp'
            exact ⟨pre'', ']', hp'', by simp [isValueEnd]⟩
          · split at h
            · rename_i hc
              rw [Option.map_eq_some'] at h
              obtain ⟨⟨b', r'⟩, hpb, heq⟩ := h
              simp only [Prod.mk.injEq] at heq
              obtain ⟨pre, hp⟩ := parseStringBody_consumed _ _ _ _ hpb
              rw [heq.2] at hp
              obtain ⟨pre', hp'⟩ := decomp_cons c hp
              exact ⟨pre', '"', hp', by simp [isValueEnd]⟩
            · split at h
              · rename_i hc
                split at h
                · rename_i r
                  simp only [Option.some.injEq, Prod.mk.injEq] at h
                  subst hc
                  refine ⟨['t', 'r', 'u'], 'e', ?_, by simp [isValueEnd]⟩
                  simp [← h.2]
                · simp at h
              · split at h
                · rename_i hc
                  split at h
                  · rename_i r
                    simp only [Option.some.injEq, Prod.mk.injEq] at h
                    subst hc
                    refine ⟨['f', 'a', 'l', 's'], 'e', ?_, by simp [isValueEnd]⟩
                    simp [← h.2]
                  · simp at h
                · split at h
                  · rename_i hc
                    split at h
                    · rename_i r
                      simp only [Option.some.injEq, Prod.mk.injEq] at h
                      subst hc
                      refine ⟨['n', 'u', 'l'], 'l', ?_, by simp [isValueEnd]⟩
                      simp [← h.2]
                    · simp at h
                  · split at h
                    · rename_i hc
                      rw [Option.map_eq_some'] at h
                      obtain ⟨⟨lit, r'⟩, hpn, heq⟩ := h
                      simp only [Prod.mk.injEq] at heq
                      obtain ⟨pre, d, hp, hdig⟩ := parseNumber_consumed hpn
                      rw [heq.2] at hp
                      exact ⟨pre, d, hp, by simp [isValueEnd, hdig]⟩
                    · simp at h
    · -- parseMembersStart
      intro cs v rest h
      match cs with
      | [] => simp [parseMembersStart] at h
      | c :: rest' =>
        unfold parseMembersStart at h
        split at h
        · rename_i hc
          simp only [Option.some.injEq, Prod.mk.injEq] at h
          subst hc
          exact ⟨[], by simp [← h.2]⟩
        · exact ihM _ _ _ _ h
    · -- parseMembers
      intro acc cs v rest h
      match cs with
      | [] => simp [parseMembers] at h
      | c :: rest1 =>
        unfold parseMembers at h
        split at h
        case isFalse => simp at h
        case isTrue hc =>
        split at h
        case h_1 => simp at h
        case h_2 kb r1 hsb =>
        obtain ⟨preS, hpS⟩ := parseStringBody_consumed (rest1.length + 1) rest1 kb r1 hsb
        split at h
        case h_1 => simp at h
        case h_2 c1 r3 hdw =>
        split at h
        case isFalse => simp at h
        case isTrue hc1 =>
        split at h
        case h_1 => simp at h
        case h_2 v2 r4 hpv =>
        obtain ⟨preV, cV, hpV, _⟩ := ihV _ _ _ hpv
        split at h
        case h_1 => simp at h
        case h_2 c2 r6 hdw4 =>
        split at h
        case isTrue hc2 =>
          obtain ⟨pre6, hp6⟩ := ihM _ _ _ _ h
          obtain ⟨p6, hp6'⟩ := decomp_dropWhile isJsonWs hp6
          obtain ⟨p4, hp4⟩ := decomp_dropWhile_cons isJsonWs hdw4 hp6'
          obtain ⟨p3d, hp3d⟩ := ext_decomp hpV hp4
          obtain ⟨p3, hp3⟩ := decomp_dropWhile isJsonWs hp3d
          obtain ⟨p1, hp1⟩ := decomp_dropWhile_cons isJsonWs hdw hp3
          obtain ⟨pR, hpR⟩ := ext_decomp hpS hp1
          obtain ⟨pre', hp'⟩ := decomp_cons c hpR
          exact ⟨pre', hp'⟩
        case isFalse =>
        split at h
        case isFalse => simp at h
        case isTrue hc2 =>
        simp only [Option.some.injEq, Prod.mk.injEq] at h
        subst hc2
        rw [h.2] at hdw4
        obtain ⟨p4, hp4⟩ := decomp_dropWhile isJsonWs
          (show r4.dropWhile isJsonWs = [] ++ rbrace :: rest by rw [hdw4]; rfl)
        obtain ⟨p3d, hp3d⟩ := ext_decomp hpV hp4
        obtain ⟨p3, hp3⟩ := decomp_dropWhile isJsonWs hp3d
        obtain ⟨p1, hp1⟩ := decomp_dropWhile_cons isJsonWs hdw hp3
        obtain ⟨pR, hpR⟩ := ext_decomp hpS hp1
        obtain ⟨pre', hp'⟩ := decomp_cons c hpR
        exact ⟨pre', hp'⟩
    · -- parseElemsStart
      intro cs v rest h
      match cs with
      | [] => simp [parseElemsStart] at h
      | c :: rest' =>
        unfold parseElemsStart at h
        split at h
        · rename_i hc
          simp only [Option.some.injEq, Prod.mk.injEq] at h
          subst hc
          exact ⟨[], by simp [← h.2]⟩
        · exact ihE _ _ _ _ h
    · -- parseElems
      intro acc cs v rest h
      rw [parseElems] at h
      split at h
      case h_1 => simp at h
      case h_2 v1 r1 hpv =>
      obtain ⟨preV, cV, hpV, _⟩ := ihV _ _ _ hpv
      split at h
      case h_1 => simp at h
      case h_2 c2 r3 hdw =>
      split at h
      case isTrue hc2 =>
        obtain ⟨pre3, hp3⟩ := ihE _ _ _ _ h
        obtain ⟨p3, hp3'⟩ := decomp_dropWhile isJsonWs hp3
        obtain ⟨p1, hp1⟩ := decomp_dropWhile_cons isJsonWs hdw hp3'
        exact ext_decomp hpV hp1
      case isFalse =>
      split at h
      case isFalse => simp at h
      case isTrue hc2 =>
      simp only [Option.some.injEq, Prod.mk.injEq] at h
      subst hc2
      rw [h.2] at hdw
      obtain ⟨p1, hp1⟩ := decomp_dropWhile isJsonWs
        (show r1.dropWhile isJsonWs = [] ++ ']' :: rest by rw [hdw]; rfl)
      exact ext_decomp hpV hp1

/-! ## The decoders agree with a direct parse on valid JSON -/

theorem isJsonWs_imp_isPyWs {c : Char} (h : isJsonWs c = true) : isPyWs c = true := by
  simp only [isJsonWs, Bool.or_eq_true, decide_eq_true_eq] at h
  rcases h with ((h | h) | h) | h <;> simp [isPyWs, h]

theorem valueStart_ne_btick {c : Char} (h : isValueStart c = true) : c ≠ btick := by
  simp only [isValueStart, Bool.or_eq_true, decide_eq_true_eq] at h
  intro hc
  subst hc
  rcases h with ((((((h | h) | h) | h) | h) | h) | h) | h <;> revert h <;> decide

theorem valueEnd_ne_btick {c : Char} (h : isValueEnd c = true) : c ≠ btick := by
  simp only [isValueEnd, Bool.or_eq_true, decide_eq_true_eq] at h
  intro hc
  subst hc
  rcases h with ((((h | h) | h) | h) | h) | h <;> revert h <;> decide

theorem valueEnd_not_ws {c : Char} (h : isValueEnd c = true) : isPyWs c = false := by
  simp only [isValueEnd, Bool.or_eq_true, decide_eq_true_eq] at h
  by_contra hw
  rw [Bool.not_eq_false] at hw
  simp only [isPyWs, Bool.or_eq_true, decide_eq_true_eq] at hw
  rcases hw with ((((hw | hw) | hw) | hw) | hw) | hw <;> subst hw <;>
    rcases h with ((((h | h) | h) | h) | h) | h <;> revert h <;> decide

/-- Dissect a successful `pyJsonLoads` on an already-stripped string: the
whole input is consumed, it is non-empty, it starts with a value-start
character and ends with a value-end character. -/
theorem loads_stripped_shape {cs : List Char} {v : PyJson}
    (hst : pyStripL cs = cs)
    (h : pyJsonLoads ⟨cs⟩ = some v) :
    ∃ c0 cs0 pre c,
      cs = c0 :: cs0 ∧ isValueStart c0 = true ∧
      cs = pre ++ [c] ∧ isValueEnd c = true := by
  unfold pyJsonLoads at h
  have hdata : (String.mk cs).data = cs := rfl
  rw [hdata] at h
  simp only [] at h
  have hdw : cs.dropWhile isJsonWs = cs := by
    apply dropWhile_eq_self_of_head
    intro c hc
    by_contra hj
    rw [Bool.not_eq_false] at hj
    have := isJsonWs_imp_isPyWs hj
    rw [← hst] at hc
    rw [pyStripL_head hc] at this
    exact Bool.false_ne_true this
  rw [hdw] at h
  cases hpv : parseValue (cs.length + 1) cs with
  | none => rw [hpv] at h; simp at h
  | some vr =>
    obtain ⟨v', rest⟩ := vr
    rw [hpv] at h
    simp only at h
    split at h
    · rename_i hrest
      simp only [Option.some.injEq] at h
      subst h
      obtain ⟨c0, cs0, hc0, hstart⟩ := parseValue_head hpv
      obtain ⟨pre, c, hdec, hend⟩ := (parse_consumed_all (cs.length + 1)).1 _ _ _ hpv
      have hrnil : rest = [] := by
        by_contra hne
        have hlast : cs.getLast? = rest.getLast? := by
          rw [hdec, show pre ++ c :: rest = (pre ++ [c]) ++ rest by simp,
              List.getLast?_append_of_ne_nil (pre ++ [c]) hne]
        cases hg : rest.getLast? with
        | none => exact hne (List.getLast?_eq_none_iff.mp hg)
        | some d =>
          have hdws : ∀ x ∈ rest, isJsonWs x = true := List.dropWhile_eq_nil_iff.mp hrest
          have hdpy : isPyWs d = true := isJsonWs_imp_isPyWs (hdws d (mem_of_getLastOpt hg))
          rw [hg] at hlast
          rw [← hst] at hlast
          rw [pyStripL_last hlast] at hdpy
          exact Bool.false_ne_true hdpy
      subst hrnil
      refine ⟨c0, cs0, pre, c, hc0, hstart, ?_, hend⟩
      simpa using hdec
    · simp at h

/-- A prefix starting with a character forces the head. -/
theorem head_of_pre {l1 l2 : List Char} {a : Char} (h : (a :: l1) <+: l2) :
    l2.head? = some a := by
  obtain ⟨u, hu⟩ := h
  rw [← hu]
  rfl

/-- On text whose stripped form is valid JSON, both decoders return exactly
the direct-parse value. -/
theorem decoders_on_valid {s : String} {v : PyJson}
    (h : pyJsonLoads (pyStrip s) = some v) :
    parse_structured_response s = Except.ok v ∧
    extract_json_object s = Except.ok v := by
  have hidem : pyStripL (pyStripL s.data) = pyStripL s.data := pyStripL_idem s.data
  obtain ⟨c0, cs0, pre, c, hc0, hstart, hdec, hend⟩ :=
    loads_stripped_shape hidem h
  have hnotpre7 : "```json".data.isPrefixOf (pyStripL s.data) = false := by
    by_contra hb
    rw [Bool.not_eq_false, List.isPrefixOf_iff_prefix] at hb
    have hh := @head_of_pre ("``json".data) (pyStripL s.data) btick hb
    rw [hc0] at hh
    simp only [List.head?_cons, Option.some.injEq] at hh
    exact valueStart_ne_btick hstart hh
  have hnotpre3 : "```".data.isPrefixOf (pyStripL s.data) = false := by
    by_contra hb
    rw [Bool.not_eq_false, List.isPrefixOf_iff_prefix] at hb
    have hh := @head_of_pre ("``".data) (pyStripL s.data) btick hb
    rw [hc0] at hh
    simp only [List.head?_cons, Option.some.injEq] at hh
    exact valueStart_ne_btick hstart hh
  have hnotsuf : "```".data.isSuffixOf (pyStripL s.data) = false := by
    by_contra hb
    rw [Bool.not_eq_false, List.isSuffixOf_iff_suffix] at hb
    obtain ⟨u, hu⟩ := hb
    have hlast : (pyStripL s.data).getLast? = some btick := by
      rw [← hu, List.getLast?_append_of_ne_nil u (by decide)]
      decide
    rw [hdec, List.getLast?_append_of_ne_nil pre (by simp)] at hlast
    simp only [List.getLast?_singleton, Option.some.injEq] at hlast
    exact valueEnd_ne_btick hend hlast
  have hfence : fenceStripL s.data = pyStripL s.data := by
    unfold fenceStripL
    simp only [hnotpre7, hnotpre3, hnotsuf, Bool.false_eq_true, if_false]
  have h' : pyJsonLoads ⟨pyStripL s.data⟩ = some v := h
  constructor
  · unfold parse_structured_response
    rw [hfence]
    simp only []
    rw [hidem, h']
  · unfold extract_json_object
    rw [hfence]
    simp only []
    rw [hidem, h']

/-! ## Claims: provider resolution and memory reset -/

/-- C4: `_resolve_provider` returns the requested provider when it is among
the available providers (and non-empty, since Python truthiness treats `""`
as absent); otherwise the first available provider in registration order;
otherwise `None` (`available.head?` covers the last two cases, including
lists of any size). -/
theorem resolve_provider_branches (available : List String) (requested : Option String) :
    (∀ r, requested = some r → r ≠ "" → r ∈ available →
      resolve_provider available requested = some r) ∧
    (∀ r, requested = some r → r ∉ available →
      resolve_provider available requested = available.head?) ∧
    (requested = none → resolve_provider available requested = available.head?) := by
  refine ⟨?_, ?_, ?_⟩
  · intro r hreq hne hmem
    subst hreq
    unfold resolve_provider
    rw [if_pos]
    simp only [truthyOpt, Option.getD_some, Bool.and_eq_true, bne_iff_ne, ne_eq, emptyStr]
    exact ⟨by simpa using hne, List.elem_eq_true_of_mem hmem⟩
  · intro r hreq hmem
    subst hreq
    unfold resolve_provider
    rw [if_neg]
    · cases available <;> rfl
    · simp only [truthyOpt, Option.getD_some, Bool.and_eq_true, bne_iff_ne, ne_eq, emptyStr]
      intro ⟨_, hc⟩
      exact hmem (List.mem_of_elem_eq_true hc)
  · intro hreq
    subst hreq
    unfold resolve_provider
    rw [if_neg]
    · cases available <;> rfl
    · simp [truthyOpt]

/-- C4 witness: the three branches at registries of size 0, 1 and 3. -/
theorem resolve_provider_branches_witness :
    resolve_provider [] none = none ∧
    resolve_provider ["anthropic"] none = some "anthropic" ∧
    resolve_provider ["anthropic"] (some "anthropic") = some "anthropic" ∧
    resolve_provider ["anthropic", "openai", "google"] (some "openai") = some "openai" ∧
    resolve_provider ["anthropic", "openai", "google"] (some "mistral") = some "anthropic" ∧
    resolve_provider [] (some "openai") = none :=
  ⟨(resolve_provider_branches [] none).2.2 rfl,
   (resolve_provider_branches ["anthropic"] none).2.2 rfl,
   (resolve_provider_branches ["anthropic"] (some "anthropic")).1 "anthropic" rfl
     (by decide) (by decide),
   (resolve_provider_branches ["anthropic", "openai", "google"] (some "openai")).1
     "openai" rfl (by decide) (by decide),
   (resolve_provider_branches ["anthropic", "openai", "google"] (some "mistral")).2.1
     "mistral" rfl (by decide),
   (resolve_provider_branches [] (some "openai")).2.1 "openai" rfl (by decide)⟩

/-- Membership in the keys of a filtered histories dict. -/
theorem mem_filtered_keys (hs : List ((String × String) × List (String × String)))
    (q : (String × String) → Prop) [DecidablePred q] (k : String × String) :
    k ∈ (hs.filter (fun kv => decide (q kv.1))).map (fun kv => kv.1) ↔
      k ∈ hs.map (fun kv => kv.1) ∧ q k := by
  simp only [List.mem_map, List.mem_filter, decide_eq_true_eq]
  constructor
  · rintro ⟨kv, ⟨hm, hq⟩, rfl⟩
    exact ⟨⟨kv, hm, rfl⟩, hq⟩
  · rintro ⟨⟨kv, hm, rfl⟩, hq⟩
    exact ⟨kv, ⟨hm, hq⟩, rfl⟩

/-- Branch reduction of `reset_memory` with only the provider filter. -/
theorem reset_memory_provider_eq (st : MemState) {p : String} (hp : p ≠ "") :
    reset_memory st (some p) none =
      ({ chains := st.chains.filter
           (fun c => !((st.histKeys.filter (fun k => k.1 = p)).contains c)),
         histories := st.histories.filter (fun kv => kv.1.1 ≠ p) },
       (st.histKeys.filter (fun k => k.1 = p)).map .key) := by
  unfold reset_memory
  rw [if_neg (by simp [truthyOpt]), if_pos (by simp [truthyOpt, hp])]
  rfl

/-- Branch reduction of `reset_memory` with only the session filter. -/
theorem reset_memory_session_eq (st : MemState) {s : String} (hs : s ≠ "") :
    reset_memory st none (some s) =
      ({ chains := st.chains.filter
           (fun c => !((st.histKeys.filter (fun k => k.2 = s)).contains c)),
         histories := st.histories.filter (fun kv => kv.1.2 ≠ s) },
       (st.histKeys.filter (fun k => k.2 = s)).map .key) := by
  unfold reset_memory
  rw [if_neg (by simp [truthyOpt]), if_neg (by simp [truthyOpt]),
      if_pos (by simp [truthyOpt, hs])]
  rfl

/-- Branch reduction of `reset_memory` with both filters. -/
theorem reset_memory_both_eq (st : MemState) {p s : String} (hp : p ≠ "") (hs : s ≠ "") :
    reset_memory st (some p) (some s) =
      ({ chains := st.chains.filter (fun c => c ≠ (p, s)),
         histories := st.histories.filter (fun kv => kv.1 ≠ (p, s)) },
       [.key (p, s)]) := by
  unfold reset_memory
  rw [if_pos (by simp [truthyOpt, hp, hs])]
  rfl

/-- C1: the four-way `reset_memory` filter.  Both filters absent: every
stored key is removed and the sentinel list `["ALL"]` is returned.
Provider only: exactly the stored keys under that provider are removed and
listed.  Session only: exactly the stored keys with that session id are
removed and listed.  Both given: exactly the key `(p, s)` is removed and
the returned list is `[(p, s)]`.  (The filters are "given" when they are
non-empty strings; Python truthiness treats `""` like `None`.) -/
theorem reset_memory_four_way (st : MemState) (p s : String)
    (hp : p ≠ "") (hs : s ≠ "") :
    (reset_memory st none none = (⟨[], []⟩, [.all])) ∧
    ((reset_memory st (some p) none).2 =
        (st.histKeys.filter (fun k => k.1 = p)).map .key ∧
      ∀ k, k ∈ (reset_memory st (some p) none).1.histKeys ↔
        k ∈ st.histKeys ∧ k.1 ≠ p) ∧
    ((reset_memory st none (some s)).2 =
        (st.histKeys.filter (fun k => k.2 = s)).map .key ∧
      ∀ k, k ∈ (reset_memory st none (some s)).1.histKeys ↔
        k ∈ st.histKeys ∧ k.2 ≠ s) ∧
    ((reset_memory st (some p) (some s)).2 = [.key (p, s)] ∧
      ∀ k, k ∈ (reset_memory st (some p) (some s)).1.histKeys ↔
        k ∈ st.histKeys ∧ k ≠ (p, s)) := by
  refine ⟨rfl, ⟨?_, ?_⟩, ⟨?_, ?_⟩, ⟨?_, ?_⟩⟩
  · rw [reset_memory_provider_eq st hp]
  · intro k
    rw [reset_memory_provider_eq st hp]
    exact mem_filtered_keys st.histories (fun k => k.1 ≠ p) k
  · rw [reset_memory_session_eq st hs]
  · intro k
    rw [reset_memory_session_eq st hs]
    exact mem_filtered_keys st.histories (fun k => k.2 ≠ s) k
  · rw [reset_memory_both_eq st hp hs]
  · intro k
    rw [reset_memory_both_eq st hp hs]
    exact mem_filtered_keys st.histories (fun k => k ≠ (p, s)) k

/-- C1 witness: the four branches at a concrete three-session store. -/
theorem reset_memory_four_way_witness :
    (reset_memory ⟨[("openai", "s1")],
        [(("openai", "s1"), []), (("openai", "s2"), []), (("anthropic", "s1"), [])]⟩
      none none = (⟨[], []⟩, [.all])) ∧
    (reset_memory ⟨[("openai", "s1")],
        [(("openai", "s1"), []), (("openai", "s2"), []), (("anthropic", "s1"), [])]⟩
      (some "openai") none).2 = [.key ("openai", "s1"), .key ("openai", "s2")] ∧
    (reset_memory ⟨[("openai", "s1")],
        [(("openai", "s1"), []), (("openai", "s2"), []), (("anthropic", "s1"), [])]⟩
      none (some "s1")).2 = [.key ("openai", "s1"), .key ("anthropic", "s1")] ∧
    (reset_memory ⟨[("openai", "s1")],
        [(("openai", "s1"), []), (("openai", "s2"), []), (("anthropic", "s1"), [])]⟩
      (some "openai") (some "s2")).2 = [.key ("openai", "s2")] := by
  have h := reset_memory_four_way
    ⟨[("openai", "s1")],
      [(("openai", "s1"), []), (("openai", "s2"), []), (("anthropic", "s1"), [])]⟩
    "openai" "s2" (by decide) (by decide)
  have h2 := reset_memory_four_way
    ⟨[("openai", "s1")],
      [(("openai", "s1"), []), (("openai", "s2"), []), (("anthropic", "s1"), [])]⟩
    "openai" "s1" (by decide) (by decide)
  refine ⟨h.1, ?_, ?_, ?_⟩
  · rw [h.2.1.1]; decide
  · rw [h2.2.2.1.1]; decide
  · rw [h.2.2.2.1]

/-- C10: with both filters given, `reset_memory` reports the key `(p, s)`
as removed even when that key was never created, while the provider-only
and session-only branches report only keys actually present in the store. -/
theorem reset_memory_reports_requested_key (st : MemState) (p s : String)
    (hp : p ≠ "") (hs : s ≠ "") :
    ((reset_memory st (some p) (some s)).2 = [.key (p, s)]) ∧
    (∀ k, .key k ∈ (reset_memory st (some p) none).2 → k ∈ st.histKeys) ∧
    (∀ k, .key k ∈ (reset_memory st none (some s)).2 → k ∈ st.histKeys) := by
  refine ⟨?_, ?_, ?_⟩
  · rw [reset_memory_both_eq st hp hs]
  · intro k hk
    rw [reset_memory_provider_eq st hp] at hk
    simp only [List.mem_map, List.mem_filter] at hk
    obtain ⟨k2, ⟨hm, _⟩, hkey⟩ := hk
    cases hkey
    exact hm
  · intro k hk
    rw [reset_memory_session_eq st hs] at hk
    simp only [List.mem_map, List.mem_filter] at hk
    obtain ⟨k2, ⟨hm, _⟩, hkey⟩ := hk
    cases hkey
    exact hm

/-- C10 witness: on the empty store, resetting a never-created key still
reports that key as removed. -/
theorem reset_memory_reports_requested_key_witness :
    (reset_memory ⟨[], []⟩ (some "openai") (some "zzz")).2 =
      [.key ("openai", "zzz")] ∧
    ("openai", "zzz") ∉ (MemState.mk [] []).histKeys :=
  ⟨(reset_memory_reports_requested_key ⟨[], []⟩ "openai" "zzz"
      (by decide) (by decide)).1,
   by decide⟩

/-! ## Claims: durable session file naming -/

/-- Joining with a double underscore is injective when the left components
contain no underscore at all. -/
theorem sep_encode_inj : ∀ (p1 p2 s1 s2 : List Char), '_' ∉ p1 → '_' ∉ p2 →
    p1 ++ '_' :: '_' :: s1 = p2 ++ '_' :: '_' :: s2 → p1 = p2 ∧ s1 = s2 := by
  intro p1
  induction p1 with
  | nil =>
    intro p2 s1 s2 _ h2 h
    cases p2 with
    | nil => simpa using h
    | cons b p2' =>
      simp only [List.nil_append, List.cons_append, List.cons.injEq] at h
      exact absurd (h.1.symm ▸ List.mem_cons_self b p2') (by simpa [← h.1] using h2)
  | cons a p1' ih =>
    intro p2 s1 s2 h1 h2 h
    cases p2 with
    | nil =>
      simp only [List.nil_append, List.cons_append, List.cons.injEq] at h
      exact absurd (h.1 ▸ List.mem_cons_self a p1') (by simpa [h.1] using h1)
    | cons b p2' =>
      simp only [List.cons_append, List.cons.injEq] at h
      obtain ⟨hab, htail⟩ := h
      obtain ⟨hp, hs⟩ := ih p2' s1 s2 (fun hm => h1 (List.mem_cons_of_mem a hm))
        (fun hm => h2 (List.mem_cons_of_mem b hm)) htail
      exact ⟨by rw [hab, hp], hs⟩

/-- The character list of a session file name. -/
theorem session_file_name_data (p s : String) :
    (session_file_name p s).data =
      p.data ++ '_' :: '_' :: (s.data ++ ".json".data) := by
  unfold session_file_name
  rw [String.data_append, String.data_append, String.data_append]
  rw [show ("__" : String).data = ['_', '_'] from rfl]
  simp [List.append_assoc]

/-- C9 counterexample: the double-underscore separator is accepted inside
components, and two distinct keys with underscore-bearing components can
collide, so the claim's "separator not permitted in either component, hence
no collisions" reading is false for raw string components. -/
theorem session_file_name_collision :
    session_file_name "a_" "xyz" = session_file_name "a" "_xyz" ∧
    ("a_", "xyz") ≠ (("a", "_xyz") : String × String) ∧
    ¬ ("__".data <:+: "a_".data) ∧
    ¬ ("__".data <:+: "xyz".data) ∧
    ¬ ("__".data <:+: "a".data) ∧
    ¬ ("__".data <:+: "_xyz".data) := by
  refine ⟨?_, by decide, by decide, by decide, by decide, by decide⟩
  decide

/-- C9 amended: the session file name joins provider and session id with a
double underscore and the `.json` extension; registry provider identifiers
contain no underscore, which makes the encoding injective across registry
providers and arbitrary session ids; and a fresh manager (empty cache)
reconstructs a session's store by reading back exactly that file. -/
theorem session_file_layout :
    (∀ p s, session_file_name p s = p ++ "__" ++ s ++ ".json") ∧
    (∀ p1 p2 s1 s2, p1 ∈ registryProviders → p2 ∈ registryProviders →
      session_file_name p1 s1 = session_file_name p2 s2 → p1 = p2 ∧ s1 = s2) ∧
    (∀ (Store : Type) (fresh st : Store) (files : String → Option Store) (p s : String),
      files (session_file_name p s) = some st →
      (get_chat_store fresh files [] p s).1 = st) := by
  refine ⟨fun p s => rfl, ?_, ?_⟩
  · intro p1 p2 s1 s2 h1 h2 h
    have hu1 : '_' ∉ p1.data := by
      fin_cases h1 <;> decide
    have hu2 : '_' ∉ p2.data := by
      fin_cases h2 <;> decide
    have hd : (session_file_name p1 s1).data = (session_file_name p2 s2).data := by
      rw [h]
    rw [session_file_name_data, session_file_name_data] at hd
    obtain ⟨hp, hs⟩ := sep_encode_inj p1.data p2.data _ _ hu1 hu2 hd
    exact ⟨String.ext hp, String.ext (List.append_cancel_right hs)⟩
  · intro Store fresh st files p s hf
    unfold get_chat_store
    simp [lookupKey, hf]

/-- C9 amended witness: concrete instances of each conjunct. -/
theorem session_file_layout_witness :
    session_file_name "openai" "s1" = "openai__s1.json" ∧
    ("openai" = "openai" ∧ "a__b" = "a__b") ∧
    (get_chat_store ""
        (fun n => if n = "openai__s1.json" then some "HIST" else none)
        [] "openai" "s1").1 = "HIST" := by
  refine ⟨session_file_layout.1 "openai" "s1", ?_, ?_⟩
  · exact session_file_layout.2.1 "openai" "openai" "a__b" "a__b"
      (by decide) (by decide) rfl
  · exact session_file_layout.2.2 String "" "HIST"
      (fun n => if n = "openai__s1.json" then some "HIST" else none)
      "openai" "s1" (by decide)

/-! ## Claims: the no-provider failure record -/

/-- Reduction of the chapter 4 ask on an empty registry. -/
theorem ch4_no_providers (env : GatewayEnv) (topic : String) (provider : Option String)
    (template : String) (maxTokens : Int) (temperature : Rat)
    (invokeResult : Except String String) (prompt : String)
    (hav : env.available = [])
    (hf : pyFormat template [(kTopic, topic)] = .ok prompt) :
    ch4_ask_question env topic provider template maxTokens temperature invokeResult =
      .ok { success := false, provider := sentinelNone, model := sentinelNone,
            prompt := prompt, response := none, error := some noProvidersMsg } := by
  have hres : resolve_provider env.available provider = none := by
    unfold resolve_provider
    rw [hav]
    rw [if_neg (by simp)]
  unfold ch4_ask_question
  rw [hf]
  simp [Except.bind, hres, truthyOpt]

/-- Reduction of the llamaindex chapter 7 ask on an empty registry. -/
theorem ch7x_no_providers (env : GatewayEnv) (md dt : String → String)
    (topic : String) (provider : Option String) (template : String)
    (maxTokens : Int) (temperature : Rat) (sessionId : String)
    (resp1 resp2 : Except String String) (prompt2 : String)
    (hav : env.available = [])
    (hf2 : pyFormat template [(kTopic, topic), (kTools, build_tools_prompt)] = .ok prompt2) :
    ch7x_ask_question env md dt topic provider template maxTokens temperature sessionId
        resp1 resp2 =
      ⟨.ok { success := false, provider := sentinelNone, model := sentinelNone,
             prompt := prompt2, response := none, error := some noProvidersMsg },
       [], []⟩ := by
  have hres : resolve_provider env.available provider = none := by
    unfold resolve_provider
    rw [hav]
    rw [if_neg (by simp)]
  unfold ch7x_ask_question
  rw [hf2]
  simp [hres, truthyOpt]

/-- C7: with no providers available, both the chapter 4 ask and the
llamaindex chapter 7 ask return (in-band, as an `.ok` value rather than an
exception) the failure record with `success = false`, error exactly
`"No providers available"`, provider and model `"none"`, and no response. -/
theorem no_providers_in_band (env : GatewayEnv) (md dt : String → String)
    (topic : String) (provider : Option String) (template template2 : String)
    (maxTokens : Int) (temperature : Rat) (sessionId : String)
    (invokeResult resp1 resp2 : Except String String) (prompt prompt2 : String)
    (hav : env.available = [])
    (hf : pyFormat template [(kTopic, topic)] = .ok prompt)
    (hf2 : pyFormat template2 [(kTopic, topic), (kTools, build_tools_prompt)] = .ok prompt2) :
    ch4_ask_question env topic provider template maxTokens temperature invokeResult =
      .ok { success := false, provider := "none", model := "none",
            prompt := prompt, response := none,
            error := some "No providers available" } ∧
    ch7x_ask_question env md dt topic provider template2 maxTokens temperature sessionId
        resp1 resp2 =
      ⟨.ok { success := false, provider := "none", model := "none",
             prompt := prompt2, response := none,
             error := some "No providers available" },
       [], []⟩ :=
  ⟨ch4_no_providers env topic provider template maxTokens temperature invokeResult
     prompt hav hf,
   ch7x_no_providers env md dt topic provider template2 maxTokens temperature sessionId
     resp1 resp2 prompt2 hav hf2⟩

set_option maxRecDepth 80000

/-- C7 witness: the concrete no-provider scenario. -/
theorem no_providers_in_band_witness :
    ch4_ask_question ⟨[], fun _ => "m"⟩ "weather" none "{topic}" 1000 (7/10)
        (.ok "hi") =
      .ok { success := false, provider := "none", model := "none",
            prompt := "weather", response := none,
            error := some "No providers available" } ∧
    ch7x_ask_question ⟨[], fun _ => "m"⟩ (fun x => x) (fun _ => "now") "weather" none
        TOOLS_TEMPLATE 1000 (2/10) "default" (.ok "x") (.ok "y") =
      ⟨.ok { success := false, provider := "none", model := "none",
             prompt := (pyFormat TOOLS_TEMPLATE
               [(kTopic, "weather"), (kTools, build_tools_prompt)]).toOption.getD "",
             response := none, error := some "No providers available" },
       [], []⟩ :=
  no_providers_in_band ⟨[], fun _ => "m"⟩ (fun x => x) (fun _ => "now") "weather" none
    "{topic}" TOOLS_TEMPLATE 1000 (7/10) "default" (.ok "hi") (.ok "x") (.ok "y")
    "weather"
    ((pyFormat TOOLS_TEMPLATE
        [(kTopic, "weather"), (kTools, build_tools_prompt)]).toOption.getD "")
    rfl rfl rfl

/-! ## Claims: decoder idempotence and the fallback span -/

set_option maxRecDepth 80000

/-- C8: on input whose stripped text is already valid JSON, both decoders
return exactly the value of the direct parse; in particular decoding
`\x7b"answer":"x"\x7d` gives the same structured value bare or fenced. -/
theorem structured_decode_idempotent :
    (∀ s v, pyJsonLoads (pyStrip s) = some v →
      parse_structured_response s = .ok v ∧ extract_json_object s = .ok v) ∧
    parse_structured_response ("\x7b\"answer\":\"x\"\x7d") =
      .ok (.obj [("answer", .str "x")]) ∧
    parse_structured_response ("```json\n\x7b\"answer\":\"x\"\x7d\n```") =
      .ok (.obj [("answer", .str "x")]) ∧
    extract_json_object ("\x7b\"answer\":\"x\"\x7d") =
      .ok (.obj [("answer", .str "x")]) ∧
    extract_json_object ("```json\n\x7b\"answer\":\"x\"\x7d\n```") =
      .ok (.obj [("answer", .str "x")]) :=
  ⟨fun _ _ h => decoders_on_valid h, rfl, rfl, rfl, rfl⟩

/-- C8 witness: the general clause applied to a bare JSON object. -/
theorem structured_decode_idempotent_witness :
    parse_structured_response ("\x7b\"a\": 1\x7d") = .ok (.obj [("a", .num "1")]) ∧
    extract_json_object ("\x7b\"a\": 1\x7d") = .ok (.obj [("a", .num "1")]) :=
  structured_decode_idempotent.1 ("\x7b\"a\": 1\x7d") (.obj [("a", .num "1")]) rfl

/-- C3 counterexample: on text with two brace spans among prose, the
spec's first-balanced-span algorithm (`specTolerantDecode`) succeeds, but
both source decoders fail: the chapter 7 fallback regex takes the greedy
first-brace-to-last-brace span (which does not parse), and the chapter 6
decoder has no fallback at all. -/
theorem tolerant_decode_not_balanced :
    specTolerantDecode ("x \x7b\"a\": 1\x7d y \x7b\"b\": 2\x7d z") =
      .ok (.obj [("a", .num "1")]) ∧
    extract_json_object ("x \x7b\"a\": 1\x7d y \x7b\"b\": 2\x7d z") =
      .error "json.JSONDecodeError" ∧
    parse_structured_response ("x \x7b\"a\": 1\x7d y \x7b\"b\": 2\x7d z") =
      .error "json.JSONDecodeError" :=
  ⟨rfl, rfl, rfl⟩

/-- The greedy fallback span runs from the first opening brace of the text
to its last closing brace. -/
theorem greedyBraceSpan_spec {cs span : List Char} (h : greedyBraceSpan cs = some span) :
    ∃ a b, cs = a ++ span ++ b ∧ (∀ x ∈ a, x ≠ lbrace) ∧ (∀ x ∈ b, x ≠ rbrace) ∧
      span.head? = some lbrace ∧ span.getLast? = some rbrace := by
  unfold greedyBraceSpan at h
  simp only [] at h
  split at h
  · simp at h
  · rename_i c2 t2' heq
    simp only [Option.some.injEq] at h
    subst h
    have hsb :
        ((cs.dropWhile (fun c => c != lbrace)).reverse.dropWhile (fun c => c != rbrace)).reverse ++
          ((cs.dropWhile (fun c => c != lbrace)).reverse.takeWhile (fun c => c != rbrace)).reverse =
          cs.dropWhile (fun c => c != lbrace) := by
      rw [← List.reverse_append, List.takeWhile_append_dropWhile, List.reverse_reverse]
    have hheads := congrArg List.head? hsb
    rw [heq] at hheads
    simp only [List.cons_append, List.head?_cons] at hheads
    have hc2 : c2 = lbrace := by
      have := head_dropWhile_false (p := fun c => c != lbrace) (l := cs) hheads.symm
      simpa using this
    refine ⟨cs.takeWhile (fun c => c != lbrace),
      ((cs.dropWhile (fun c => c != lbrace)).reverse.takeWhile (fun c => c != rbrace)).reverse,
      ?_, ?_, ?_, ?_, ?_⟩
    · rw [List.append_assoc, hsb]
      exact (List.takeWhile_append_dropWhile (p := fun c => c != lbrace) (l := cs)).symm
    · intro x hx
      have := List.mem_takeWhile_imp hx
      simpa using this
    · intro x hx
      rw [List.mem_reverse] at hx
      have := List.mem_takeWhile_imp hx
      simpa using this
    · rw [heq, hc2]
      rfl
    · rw [List.getLast?_reverse]
      cases hh : ((cs.dropWhile (fun c => c != lbrace)).reverse.dropWhile
          (fun c => c != rbrace)).head? with
      | none =>
        have hnil := List.head?_eq_none_iff.mp hh
        rw [hnil] at heq
        simp at heq
      | some d =>
        have hd := head_dropWhile_false hh
        have hd2 : d = rbrace := by simpa using hd
        rw [hd2]

/-- C3 amended: both decoders fence-strip and then try a direct parse (the
tool decoder extends the structured decoder); when the direct parse fails,
the chapter 6 structured decoder fails with a decode error (no fallback),
while the chapter 7 tool decoder parses the greedy span running from the
first opening brace to the last closing brace of the remaining text; a
tool-call object embedded in brace-free prose therefore decodes
successfully. -/
theorem tolerant_decode_characterised :
    (∀ s v, parse_structured_response s = .ok v → extract_json_object s = .ok v) ∧
    (∀ s, pyJsonLoads ⟨pyStripL (fenceStripL s.data)⟩ = none →
      parse_structured_response s = .error "json.JSONDecodeError" ∧
      extract_json_object s =
        (match greedyBraceSpan (pyStripL (fenceStripL s.data)) with
         | none => .error "json.JSONDecodeError"
         | some span =>
           match pyJsonLoads ⟨span⟩ with
           | some v => .ok v
           | none => .error "json.JSONDecodeError")) ∧
    (∀ cs span, greedyBraceSpan cs = some span →
      ∃ a b, cs = a ++ span ++ b ∧ (∀ x ∈ a, x ≠ lbrace) ∧ (∀ x ∈ b, x ≠ rbrace) ∧
        span.head? = some lbrace ∧ span.getLast? = some rbrace) ∧
    extract_json_object
        ("The call: \x7b\"name\": \"get_datetime\", \"arguments\": \x7b\"timezone\": \"UTC\"\x7d\x7d done") =
      .ok (.obj [("name", .str "get_datetime"),
                 ("arguments", .obj [("timezone", .str "UTC")])]) := by
  refine ⟨?_, ?_, fun _ _ h => greedyBraceSpan_spec h, rfl⟩
  · intro s v h
    unfold parse_structured_response at h
    unfold extract_json_object
    simp only [] at h ⊢
    cases hload : pyJsonLoads ⟨pyStripL (fenceStripL s.data)⟩ with
    | none => rw [hload] at h; simp at h
    | some w =>
      rw [hload] at h
      simp only [Except.ok.injEq] at h
      simp [h]
  · intro s hload
    constructor
    · unfold parse_structured_response
      simp only []
      rw [hload]
    · unfold extract_json_object
      simp only []
      rw [hload]

/-- C3 amended witness: the failure clause applied to brace-free text. -/
theorem tolerant_decode_characterised_witness :
    parse_structured_response ("no json here") = .error "json.JSONDecodeError" ∧
    extract_json_object ("no json here") = .error "json.JSONDecodeError" :=
  tolerant_decode_characterised.2.1 ("no json here") rfl

/-! ## C5: the QueryResult success/response/error invariant -/

/-- The invariant of §3 of the spec on every returned record: failure means
no response and a populated error; success means no error key (or `None`). -/
def resultInvariant (r : QueryResult) : Prop :=
  (r.success = false → r.response = none ∧ r.error.isSome = true) ∧
  (r.success = true → r.error = none)

theorem ch4_inv {env : GatewayEnv} {topic : String} {provider : Option String}
    {template : String} {maxTokens : Int} {temperature : Rat}
    {invokeResult : Except String String} {r : QueryResult}
    (h : ch4_ask_question env topic provider template maxTokens temperature
      invokeResult = .ok r) : resultInvariant r := by
  unfold ch4_ask_question at h
  split at h
  · exact absurd h (by simp)
  · split at h
    · injection h with h
      subst h
      exact ⟨fun _ => ⟨rfl, rfl⟩, fun hc => Bool.noConfusion hc⟩
    · split at h
      · injection h with h
        subst h
        exact ⟨fun hc => Bool.noConfusion hc, fun _ => rfl⟩
      · injection h with h
        subst h
        exact ⟨fun _ => ⟨rfl, rfl⟩, fun hc => Bool.noConfusion hc⟩

theorem ch5_inv {env : GatewayEnv} {memoryEnabled : Bool} {topic : String}
    {provider : Option String} {template : String} {maxTokens : Int}
    {temperature : Rat} {sessionId : String}
    {invokeResult : Except String String} {r : QueryResult}
    (h : ch5_ask_question env memoryEnabled topic provider template maxTokens
      temperature sessionId invokeResult = .ok r) : resultInvariant r := by
  unfold ch5_ask_question at h
  split at h
  · exact ch4_inv h
  · split at h
    · exact absurd h (by simp)
    · split at h
      · injection h with h
        subst h
        exact ⟨fun _ => ⟨rfl, rfl⟩, fun hc => Bool.noConfusion hc⟩
      · split at h
        · injection h with h
          subst h
          exact ⟨fun hc => Bool.noConfusion hc, fun _ => rfl⟩
        · injection h with h
          subst h
          exact ⟨fun _ => ⟨rfl, rfl⟩, fun hc => Bool.noConfusion hc⟩

theorem ch6_inv {env : GatewayEnv} {memoryEnabled : Bool} {topic : String}
    {provider : Option String} {template : String} {maxTokens : Int}
    {temperature : Rat} {sessionId : String}
    {invokeResult : Except String String} {r : QueryResult}
    (h : ch6_ask_question env memoryEnabled topic provider template maxTokens
      temperature sessionId invokeResult = .ok r) : resultInvariant r := by
  unfold ch6_ask_question at h
  split at h
  · exact absurd h (by simp)
  case h_2 result heq =>
    have hres : resultInvariant result := ch5_inv heq
    split at h
    case isTrue hs =>
      injection h with h
      subst h
      exact hres
    case isFalse hs =>
      have hsucc : result.success = true := by
        cases hb : result.success with
        | true => rfl
        | false => rw [hb] at hs; exact absurd rfl hs
      simp only [] at h
      split at h
      · injection h with h
        subst h
        exact ⟨fun _ => ⟨rfl, rfl⟩, fun hc => Bool.noConfusion hc⟩
      · split at h
        · injection h with h
          subst h
          refine ⟨fun hc => ?_, fun _ => hres.2 hsucc⟩
          rw [hsucc] at hc; exact Bool.noConfusion hc
        · exact absurd h (by simp)

theorem ch7x_inv {env : GatewayEnv} {md dt : String → String} {topic : String}
    {provider : Option String} {template : String} {maxTokens : Int}
    {temperature : Rat} {sessionId : String}
    {resp1 resp2 : Except String String} {r : QueryResult}
    (h : (ch7x_ask_question env md dt topic provider template maxTokens
      temperature sessionId resp1 resp2).result = .ok r) : resultInvariant r := by
  unfold ch7x_ask_question at h
  simp only [] at h
  split at h
  · exact absurd h (by simp)
  · split at h
    · injection h with h
      subst h
      exact ⟨fun _ => ⟨rfl, rfl⟩, fun hc => Bool.noConfusion hc⟩
    · split at h
      · injection h with h
        subst h
        exact ⟨fun _ => ⟨rfl, rfl⟩, fun hc => Bool.noConfusion hc⟩
      · split at h
        · injection h with h
          subst h
          exact ⟨fun _ => ⟨rfl, rfl⟩, fun hc => Bool.noConfusion hc⟩
        · split at h
          · split at h
            · split at h
              · split at h
                · injection h with h
                  subst h
                  exact ⟨fun _ => ⟨rfl, rfl⟩, fun hc => Bool.noConfusion hc⟩
                · split at h
                  · injection h with h
                    subst h
                    exact ⟨fun _ => ⟨rfl, rfl⟩, fun hc => Bool.noConfusion hc⟩
                  · split at h
                    · injection h with h
                      subst h
                      exact ⟨fun _ => ⟨rfl, rfl⟩, fun hc => Bool.noConfusion hc⟩
                    · split at h
                      · injection h with h
                        subst h
                        exact ⟨fun hc => Bool.noConfusion hc, fun _ => rfl⟩
                      · injection h with h
                        subst h
                        exact ⟨fun _ => ⟨rfl, rfl⟩, fun hc => Bool.noConfusion hc⟩
              · injection h with h
                subst h
                exact ⟨fun hc => Bool.noConfusion hc, fun _ => rfl⟩
            · injection h with h
              subst h
              exact ⟨fun hc => Bool.noConfusion hc, fun _ => rfl⟩
          · injection h with h
            subst h
            exact ⟨fun _ => ⟨rfl, rfl⟩, fun hc => Bool.noConfusion hc⟩

theorem ch7l_body_inv (env : GatewayEnv) (md dt : String → String)
    (prompt pv : String) (maxTokens : Int) (temperature : Rat)
    (sessionId : String) (invokeResult : Except String String) :
    resultInvariant (ch7l_body env md dt prompt pv maxTokens temperature
      sessionId invokeResult) := by
  unfold ch7l_body
  split
  · exact ⟨fun _ => ⟨rfl, rfl⟩, fun hc => Bool.noConfusion hc⟩
  · exact ⟨fun hc => Bool.noConfusion hc, fun _ => rfl⟩

theorem ch7l_inv {env : GatewayEnv} {md dt : String → String} {topic : String}
    {provider : Option String} {template : String} {maxTokens : Int}
    {temperature : Rat} {sessionId : String}
    {invokeResult : Except String String} {r : QueryResult}
    (h : ch7l_ask_question env md dt topic provider template maxTokens
      temperature sessionId invokeResult = .ok r) : resultInvariant r := by
  unfold ch7l_ask_question at h
  split at h
  · exact absurd h (by simp)
  · split at h
    · injection h with h
      subst h
      exact ch7l_body_inv _ _ _ _ _ _ _ _ _
    · split at h
      · injection h with h
        subst h
        exact ⟨fun _ => ⟨rfl, rfl⟩, fun hc => Bool.noConfusion hc⟩
      · injection h with h
        subst h
        exact ch7l_body_inv _ _ _ _ _ _ _ _ _

/-- C5: every `QueryResult` returned across the `ask` boundary by any
`ask_question` variant (chapter 4, chapter 5, chapter 6, and both chapter 7
gateways) satisfies the invariant: `success = false` implies the `response`
field is `None` and the `error` field is populated, and `success = true`
implies the `error` field is absent. -/
theorem ask_question_result_invariant
    (env : GatewayEnv) (md dt : String → String) (memoryEnabled : Bool)
    (topic : String) (provider : Option String) (template : String)
    (maxTokens : Int) (temperature : Rat) (sessionId : String)
    (invokeResult resp2 : Except String String) (r : QueryResult) :
    (ch4_ask_question env topic provider template maxTokens temperature
      invokeResult = .ok r → resultInvariant r) ∧
    (ch5_ask_question env memoryEnabled topic provider template maxTokens
      temperature sessionId invokeResult = .ok r → resultInvariant r) ∧
    (ch6_ask_question env memoryEnabled topic provider template maxTokens
      temperature sessionId invokeResult = .ok r → resultInvariant r) ∧
    ((ch7x_ask_question env md dt topic provider template maxTokens
      temperature sessionId invokeResult resp2).result = .ok r →
      resultInvariant r) ∧
    (ch7l_ask_question env md dt topic provider template maxTokens
      temperature sessionId invokeResult = .ok r → resultInvariant r) :=
  ⟨ch4_inv, ch5_inv, ch6_inv, ch7x_inv, ch7l_inv⟩

/-- A concrete one-provider environment for witnesses. -/
def envW : GatewayEnv := ⟨["anthropic"], fun _ => "claude-sonnet-4-20250514"⟩

theorem ask_question_result_invariant_witness :
    resultInvariant
      { success := true, provider := "anthropic",
        model := "claude-sonnet-4-20250514", prompt := "weather",
        response := some (.text "hi"),
        temperature := some (7/10), maxTokens := some 1000 } ∧
    resultInvariant
      { success := true, provider := "anthropic",
        model := "claude-sonnet-4-20250514", prompt := "weather",
        response := some (.text "hi"),
        temperature := some (7/10), maxTokens := some 1000,
        sessionId := some "default" } ∧
    resultInvariant
      { success := false, provider := "anthropic",
        model := "claude-sonnet-4-20250514", prompt := "weather", response := none,
        error := some ("Failed to parse structured JSON response: " ++
          "json.JSONDecodeError"),
        temperature := some (7/10), maxTokens := some 1000,
        sessionId := some "default", rawResponse := some "hi" } ∧
    resultInvariant
      { success := false, provider := sentinelNone,
        model := sentinelNone, prompt := "weather", response := none,
        error := some noProvidersMsg } ∧
    resultInvariant
      { success := true, provider := "anthropic",
        model := "claude-sonnet-4-20250514", prompt := "weather",
        response := some (.text "hi"),
        temperature := some (7/10), maxTokens := some 1000,
        sessionId := some "default" } := by
  refine ⟨?_, ?_, ?_, ?_, ?_⟩
  · exact (ask_question_result_invariant envW id id true "weather" none "{topic}"
      1000 (7/10) "default" (.ok "hi") (.ok "hi") _).1 rfl
  · exact (ask_question_result_invariant envW id id true "weather" none "{topic}"
      1000 (7/10) "default" (.ok "hi") (.ok "hi") _).2.1 rfl
  · exact (ask_question_result_invariant envW id id true "weather" none "{topic}"
      1000 (7/10) "default" (.ok "hi") (.ok "hi") _).2.2.1 rfl
  · exact (ask_question_result_invariant ⟨[], fun _ => emptyStr⟩ id id true
      "weather" none "{topic}" 1000 (7/10) "default" (.ok "hi") (.ok "hi") _).2.2.2.1 rfl
  · exact (ask_question_result_invariant envW id id true "weather" none "{topic}"
      1000 (7/10) "default" (.ok "hi") (.ok "hi") _).2.2.2.2 rfl

/-! ## C6: exceptions across the `ask` boundary -/

/-- C6 counterexample: `template.format(topic=topic)` runs before the `try`
block in both cited `ask_question` functions (chapter 4 langchain lines
78, chapter 7 langchain line 78), so a template whose replacement field is
not `topic` — here the template `\x7bmissing\x7d` — raises `KeyError`
across the `ask` boundary instead of being captured in the returned
record, even when a provider is available and the call would succeed. -/
theorem ask_question_raises_keyerror :
    ch4_ask_question envW "weather" none "\x7bmissing\x7d" 1000 (7/10) (.ok "hi")
      = .error "KeyError: missing" ∧
    ch7l_ask_question envW id id "weather" none "\x7bmissing\x7d" 1000 (7/10)
      "default" (.ok "hi") = .error "KeyError: missing" :=
  ⟨rfl, rfl⟩

/-- C6 amended: whenever the template formats successfully against the
`topic` argument (in particular for the default template `\x7btopic\x7d`),
nothing escapes the `ask` boundary: both cited `ask_question` functions
return a dict for every provider argument and every outcome of the
provider call, the failure modes (no provider, provider exception, tool
execution) all being folded into the record's success/error fields. -/
theorem ask_no_throw_on_valid_template
    (env : GatewayEnv) (md dt : String → String) (topic : String)
    (provider : Option String) (template : String) (maxTokens : Int)
    (temperature : Rat) (sessionId : String)
    (invokeResult : Except String String) (prompt : String)
    (h : pyFormat template [(kTopic, topic)] = .ok prompt) :
    (∃ r, ch4_ask_question env topic provider template maxTokens temperature
      invokeResult = .ok r) ∧
    (∃ r, ch7l_ask_question env md dt topic provider template maxTokens
      temperature sessionId invokeResult = .ok r) := by
  constructor
  · unfold ch4_ask_question
    rw [h]
    split
    case h_1 e heq => exact absurd heq (by simp)
    case h_2 p heq =>
      split
      · exact ⟨_, rfl⟩
      · split
        · exact ⟨_, rfl⟩
        · exact ⟨_, rfl⟩
  · unfold ch7l_ask_question
    rw [h]
    split
    case h_1 e heq => exact absurd heq (by simp)
    case h_2 p heq =>
      split
      · exact ⟨_, rfl⟩
      · split
        · exact ⟨_, rfl⟩
        · exact ⟨_, rfl⟩

theorem ask_no_throw_on_valid_template_witness :
    pyFormat "{topic}" [(kTopic, "weather")] = .ok "weather" ∧
    ((∃ r, ch4_ask_question envW "weather" none "{topic}" 1000 (7/10)
        (.error "boom") = .ok r) ∧
     (∃ r, ch7l_ask_question envW id id "weather" none "{topic}" 1000 (7/10)
        "default" (.error "boom") = .ok r)) :=
  ⟨rfl, ask_no_throw_on_valid_template envW id id "weather" none "{topic}" 1000
    (7/10) "default" (.error "boom") "weather" rfl⟩

/-! ## C2: the two-step tool flow of the llamaindex chapter 7 gateway -/

/-- The first step's `final_answer` as the source computes it (line 131):
`str(first_step.get("final_answer", "")).strip()`. -/
def firstFinalAnswer (fs1 : List (String × PyJson)) : String :=
  ⟨pyStripL (pyStr ((PyJson.lookup fs1 kFinalAnswer).getD (.str emptyStr))).data⟩

/-- The requested tool name `str(tool_call.get("name"))` (line 134). -/
def toolNameOf (tcf : List (String × PyJson)) : String :=
  pyStr ((PyJson.lookup tcf kName).getD .null)

/-- The tool arguments `tool_call.get("arguments") or \x7b\x7d` (line 135). -/
def toolArgsOf (tcf : List (String × PyJson)) : List (String × PyJson) :=
  match (if pyTruthy ((PyJson.lookup tcf kArguments).getD .null) then
    (PyJson.lookup tcf kArguments).getD .null else .obj []) with
  | .obj afs => afs
  | _ => []

/-- The returned `final_answer` after the second step (lines 146-147):
`str(second_step.get("final_answer", final_answer)).strip() or final_answer`. -/
def secondFinalAnswer (fs2 : List (String × PyJson)) (fallback : String) : String :=
  let fa2 : String := ⟨pyStripL (match PyJson.lookup fs2 kFinalAnswer with
    | some v => pyStr v
    | none => fallback).data⟩
  if fa2 = emptyStr then fallback else fa2

/-- C2: in the tools-enabled `ask_question` (llamaindex chapter 7, lines
97-169), once the template renders, a provider resolves and the first
response decodes to a dict: (a) if `tool_call` is null, the flow stops
after one provider call, no tool runs, and the returned `final_answer` is
the first step's stripped `final_answer`; (b) if `tool_call` is a dict
with a truthy `name`, `run_tool` runs exactly once on that name and its
arguments, a second provider call is made with the follow-up prompt built
from the topic, the serialised tool call and the tool output, and the
returned `final_answer` is the second step's stripped `final_answer`
unless that is empty, in which case it falls back to the first step's; the
response payload carries the tool call, the tool output and the final
answer in both cases. -/
theorem tools_two_step_flow
    (env : GatewayEnv) (md dt : String → String) (topic : String)
    (provider : Option String) (template : String) (maxTokens : Int)
    (temperature : Rat) (sessionId : String) (resp2 : Except String String)
    (txt1 prompt : String) (fs1 : List (String × PyJson))
    (hfmt : pyFormat template [(kTopic, topic), (kTools, build_tools_prompt)]
      = .ok prompt)
    (hp : truthyOpt (resolve_provider env.available provider) = true)
    (hx1 : extract_json_object txt1 = .ok (.obj fs1)) :
    ((PyJson.lookup fs1 kToolCall).getD .null = .null →
      ch7x_ask_question env md dt topic provider template maxTokens temperature
          sessionId (.ok txt1) resp2 =
        ⟨.ok { success := true,
               provider := (resolve_provider env.available provider).getD emptyStr,
               model := env.defaultModel
                 ((resolve_provider env.available provider).getD emptyStr),
               prompt := prompt,
               response := some (.tool .null none (firstFinalAnswer fs1)),
               rawAnswer := some (.str (firstFinalAnswer fs1)),
               temperature := some temperature, maxTokens := some maxTokens,
               sessionId := some sessionId },
         [prompt], []⟩) ∧
    (∀ tcf txt2 fs2 followUp,
      (PyJson.lookup fs1 kToolCall).getD .null = .obj tcf →
      pyTruthy ((PyJson.lookup tcf kName).getD .null) = true →
      resp2 = .ok txt2 →
      extract_json_object txt2 = .ok (.obj fs2) →
      pyFormat FOLLOW_UP_TEMPLATE
          [(kTopic, topic), (kToolCall, jsonDumps (.obj tcf)),
           (kToolOutput, run_tool md dt (toolNameOf tcf) (toolArgsOf tcf))]
        = .ok followUp →
      ch7x_ask_question env md dt topic provider template maxTokens temperature
          sessionId (.ok txt1) resp2 =
        ⟨.ok { success := true,
               provider := (resolve_provider env.available provider).getD emptyStr,
               model := env.defaultModel
                 ((resolve_provider env.available provider).getD emptyStr),
               prompt := prompt,
               response := some (.tool (.obj tcf)
                 (some (run_tool md dt (toolNameOf tcf) (toolArgsOf tcf)))
                 (secondFinalAnswer fs2 (firstFinalAnswer fs1))),
               rawAnswer := some (.str (secondFinalAnswer fs2 (firstFinalAnswer fs1))),
               temperature := some temperature, maxTokens := some maxTokens,
               sessionId := some sessionId },
         [prompt, followUp], [(toolNameOf tcf, toolArgsOf tcf)]⟩) := by
  constructor
  · intro hnull
    unfold ch7x_ask_question
    rw [hfmt]
    simp [hp, hx1, hnull, firstFinalAnswer]
  · intro tcf txt2 fs2 followUp htc hname hr2 hx2 hfu
    subst hr2
    unfold ch7x_ask_question
    rw [hfmt]
    simp only [hp, hx1, htc, hname]
    simp only [toolNameOf, toolArgsOf] at hfu
    rw [hfu]
    simp [hx2, secondFinalAnswer, firstFinalAnswer, toolNameOf, toolArgsOf]

/-- First-step text of the witness: a tool request for `get_datetime`. -/
def txt1W : String := "\x7b\"tool_call\": \x7b\"name\": \"get_datetime\", \"arguments\": \x7b\"timezone\": \"UTC\"\x7d\x7d, \"final_answer\": \"checking\"\x7d"

/-- Second-step text of the witness: a null tool call and a final answer. -/
def txt2W : String := "\x7b\"tool_call\": null, \"final_answer\": \"It is noon UTC.\"\x7d"

/-- First-step text of the no-tool witness branch. -/
def txt1A : String := "\x7b\"tool_call\": null, \"final_answer\": \"Sunny.\"\x7d"

/-- The parsed `tool_call` dict of `txt1W`. -/
def tcfW : List (String × PyJson) :=
  [("name", .str "get_datetime"), ("arguments", .obj [("timezone", .str "UTC")])]

/-- The parsed first step of `txt1W`. -/
def fs1W : List (String × PyJson) :=
  [("tool_call", .obj tcfW), ("final_answer", .str "checking")]

/-- The parsed second step of `txt2W`. -/
def fs2W : List (String × PyJson) :=
  [("tool_call", .null), ("final_answer", .str "It is noon UTC.")]

/-- The parsed first step of `txt1A`. -/
def fs1A : List (String × PyJson) :=
  [("tool_call", .null), ("final_answer", .str "Sunny.")]

/-- The rendered follow-up prompt of the witness scenario. -/
def followUpW : String := "You already requested a tool and now have the result.\n\nOriginal user topic: weather\nTool call: \x7b\"name\": \"get_datetime\", \"arguments\": \x7b\"timezone\": \"UTC\"\x7d\x7d\nTool output: UTC\n\nReturn strict JSON:\n\x7b\n  \"tool_call\": null,\n  \"final_answer\": \"final response for the user\"\n\x7d"

theorem tools_two_step_flow_witness :
    ch7x_ask_question envW id id "weather" none "{topic}" 1000 (7/10) "default"
        (.ok txt1A) (.error "no second call") =
      ⟨.ok { success := true, provider := "anthropic",
             model := "claude-sonnet-4-20250514", prompt := "weather",
             response := some (.tool .null none "Sunny."),
             rawAnswer := some (.str "Sunny."),
             temperature := some (7/10), maxTokens := some 1000,
             sessionId := some "default" },
       ["weather"], []⟩ ∧
    ch7x_ask_question envW id id "weather" none "{topic}" 1000 (7/10) "default"
        (.ok txt1W) (.ok txt2W) =
      ⟨.ok { success := true, provider := "anthropic",
             model := "claude-sonnet-4-20250514", prompt := "weather",
             response := some (.tool (.obj tcfW) (some "UTC") "It is noon UTC."),
             rawAnswer := some (.str "It is noon UTC."),
             temperature := some (7/10), maxTokens := some 1000,
             sessionId := some "default" },
       ["weather", followUpW], [("get_datetime", [("timezone", .str "UTC")])]⟩ :=
  ⟨(tools_two_step_flow envW id id "weather" none "{topic}" 1000 (7/10) "default"
      (.error "no second call") txt1A "weather" fs1A rfl rfl rfl).1 rfl,
   (tools_two_step_flow envW id id "weather" none "{topic}" 1000 (7/10) "default"
      (.ok txt2W) txt1W "weather" fs1W rfl rfl rfl).2
     tcfW txt2W fs2W followUpW rfl rfl rfl rfl rfl⟩
